import Mathlib

/-!
# MSAAResolve_GLFW: frame loop, resource barriers and fence synchronisation

A shallow embedding of `src/Main.cpp`:

* the command list recorded by one iteration of the main loop
  (`Main.cpp` lines 550-627) as a list of `Cmd`, followed on the queue by
  `Present` (line 634);
* the CPU/GPU interleaving (lines 530-649) as a step function over explicit
  program points, with the GPU queue as a FIFO list;
* the depth-visualisation pixel shader (lines 63-70) as a pure function, and
  the depth resolve (line 603) as a function on texture contents;
* the startup code: `CheckDXCallResult` of `src/DXHelpers.h`, `CompileShader`,
  adapter selection, and the window clamp and position;
* the full-screen vertex shader and the cube's vertex and index data.

All definitions come first; the lemmas and the claims follow.
-/

namespace MSAAResolve

/-! ## Resources and their states -/

/-- The `D3D12_RESOURCE_STATES` values that `Main.cpp` names. -/
inductive D3D12_RESOURCE_STATES
  | PRESENT
  | RENDER_TARGET
  | DEPTH_WRITE
  | RESOLVE_SOURCE
  | RESOLVE_DEST
  | PIXEL_SHADER_RESOURCE
  | GENERIC_READ
  deriving DecidableEq, Repr

/-- The GPU resources created by `main` (lines 266-388). -/
inductive Resource
  | DepthBufferTexture
  | ResolvedDepthBufferTexture
  | BackBufferTextures (i : Fin 2)
  | VertexBuffer
  | IndexBuffer
  | ConstantBuffer
  deriving DecidableEq, Repr

open D3D12_RESOURCE_STATES Resource

/-- Initial state of every resource: the `InitialResourceState` argument of its
`CreateCommittedResource` call (lines 310, 344, 382, 385, 388); swap-chain
buffers (lines 269-270) start in `PRESENT`. -/
def creationState : Resource → D3D12_RESOURCE_STATES
  | DepthBufferTexture => RESOLVE_SOURCE
  | ResolvedDepthBufferTexture => PIXEL_SHADER_RESOURCE
  | BackBufferTextures _ => PRESENT
  | VertexBuffer => GENERIC_READ
  | IndexBuffer => GENERIC_READ
  | ConstantBuffer => GENERIC_READ

/-- Sample count of each texture (`ResourceDesc.SampleDesc.Count`, lines 294
and 330; `SwapChainDesc.SampleDesc.Count`, line 223). Buffers have count 1. -/
def sampleCount : Resource → Nat
  | DepthBufferTexture => 8
  | _ => 1

/-! ## Commands recorded into the command list -/

inductive Pipeline
  | CubeDrawPipeline
  | FSQuadDrawPipeline
  deriving DecidableEq, Repr

inductive D3D_PRIMITIVE_TOPOLOGY
  | TRIANGLELIST
  | TRIANGLESTRIP
  deriving DecidableEq, Repr

inductive D3D12_RESOLVE_MODE
  | DECOMPRESS
  | MIN
  | MAX
  | AVERAGE
  deriving DecidableEq, Repr

/-- A `D3D12_RECT`. -/
structure Rect where
  left : Nat
  top : Nat
  right : Nat
  bottom : Nat
  deriving DecidableEq, Repr

/-- The command-list calls made by the loop body. Views and descriptor tables
are identified with the resource they were created on (lines 279-280, 320,
358, 446). -/
inductive Cmd
  | SetDescriptorHeaps
  | SetGraphicsRootSignature
  | ResourceBarrier (res : Resource) (StateBefore StateAfter : D3D12_RESOURCE_STATES)
  | OMSetRenderTargets (rtv : Option Resource) (dsv : Option Resource)
  | ClearDepthStencilView (dsv : Resource) (depth : ℚ) (stencil : Nat)
  | RSSetViewports (width height : Nat)
  | RSSetScissorRects (r : Rect)
  | IASetPrimitiveTopology (t : D3D_PRIMITIVE_TOPOLOGY)
  | IASetVertexBuffers (vb : Resource)
  | IASetIndexBuffer (ib : Resource)
  | SetPipelineState (p : Pipeline)
  | SetGraphicsRootDescriptorTable (rootParameter : Nat) (res : Resource)
  | DrawIndexedInstanced (indexCount instanceCount : Nat)
  | ResolveSubresourceRegion (dst : Resource) (dstX dstY : Nat) (src : Resource)
      (rect : Rect) (mode : D3D12_RESOLVE_MODE)
  | DrawInstanced (vertexCount instanceCount : Nat)
  deriving DecidableEq, Repr

open Cmd

/-- The command list recorded by one loop iteration, lines 550-627, in source
order. `w`, `h` are `windowWidth`, `windowHeight`; `bb` is
`CurrentBackBufferIndex`. -/
def recordFrame (w h : Nat) (bb : Fin 2) : List Cmd :=
  [ SetDescriptorHeaps,
    SetGraphicsRootSignature,
    ResourceBarrier DepthBufferTexture RESOLVE_SOURCE DEPTH_WRITE,
    OMSetRenderTargets none (some DepthBufferTexture),
    ClearDepthStencilView DepthBufferTexture 1 0,
    RSSetViewports w h,
    RSSetScissorRects ⟨0, 0, w, h⟩,
    IASetPrimitiveTopology .TRIANGLELIST,
    IASetVertexBuffers VertexBuffer,
    IASetIndexBuffer IndexBuffer,
    SetPipelineState .CubeDrawPipeline,
    SetGraphicsRootDescriptorTable 0 ConstantBuffer,
    DrawIndexedInstanced 36 1,
    ResourceBarrier DepthBufferTexture DEPTH_WRITE RESOLVE_SOURCE,
    ResourceBarrier ResolvedDepthBufferTexture PIXEL_SHADER_RESOURCE RESOLVE_DEST,
    ResolveSubresourceRegion ResolvedDepthBufferTexture 0 0 DepthBufferTexture
      ⟨0, 0, w, h⟩ .MAX,
    ResourceBarrier ResolvedDepthBufferTexture RESOLVE_DEST PIXEL_SHADER_RESOURCE,
    ResourceBarrier (BackBufferTextures bb) PRESENT RENDER_TARGET,
    OMSetRenderTargets (some (BackBufferTextures bb)) none,
    IASetPrimitiveTopology .TRIANGLESTRIP,
    SetPipelineState .FSQuadDrawPipeline,
    SetGraphicsRootDescriptorTable 1 ResolvedDepthBufferTexture,
    DrawInstanced 4 1,
    ResourceBarrier (BackBufferTextures bb) RENDER_TARGET PRESENT ]

/-- What the GPU queue sees of one frame, in order: the commands of the
executed list (line 632), then the swap chain's `Present` (line 634). -/
inductive GpuOp
  | cmd (c : Cmd)
  | Present (bb : Fin 2)
  deriving DecidableEq, Repr

/-- Queue timeline of one frame. -/
def frameTimeline (w h : Nat) (bb : Fin 2) : List GpuOp :=
  (recordFrame w h bb).map GpuOp.cmd ++ [GpuOp.Present bb]

/-- Queue timeline of a run of frames, given the back-buffer index that
`GetCurrentBackBufferIndex` returned for each. -/
def runTimeline (w h : Nat) : List (Fin 2) → List GpuOp
  | [] => []
  | bb :: rest => frameTimeline w h bb ++ runTimeline w h rest

/-! ## Tracking resource state through barriers -/

/-- Effect of one queue operation on the tracked resource states: a transition
barrier puts its resource in `StateAfter`, nothing else changes a state. -/
def trackOp (st : Resource → D3D12_RESOURCE_STATES) : GpuOp → Resource → D3D12_RESOURCE_STATES
  | GpuOp.cmd (ResourceBarrier res _ after) => fun r => if r = res then after else st r
  | _ => st

/-- Tracked states after a sequence of queue operations. -/
def trackOps (st : Resource → D3D12_RESOURCE_STATES) : List GpuOp → Resource → D3D12_RESOURCE_STATES
  | [] => st
  | op :: ops => trackOps (trackOp st op) ops

/-- The to-state of the last barrier on `r` in `hist`, if there is one. -/
def lastBarrierTo (r : Resource) : List GpuOp → Option D3D12_RESOURCE_STATES
  | [] => none
  | op :: ops =>
    match lastBarrierTo r ops with
    | some s => some s
    | none =>
      match op with
      | GpuOp.cmd (ResourceBarrier res _ after) => if r = res then some after else none
      | _ => none

/-- The tracked state of `r` after history `hist`: the to-state of the last
barrier on `r`, or the creation state when there is none. -/
def trackedState (hist : List GpuOp) (r : Resource) : D3D12_RESOURCE_STATES :=
  (lastBarrierTo r hist).getD (creationState r)

/-- Pipeline bindings established by the commands recorded so far. -/
structure Bindings where
  rtv : Option Resource
  dsv : Option Resource
  pso : Option Pipeline
  table0 : Option Resource
  table1 : Option Resource
  deriving DecidableEq, Repr

/-- Bindings of a freshly reset command list (line 548). -/
def Bindings.reset : Bindings := ⟨none, none, none, none, none⟩

/-- Effect of one command on the bindings. -/
def bindOp (b : Bindings) : GpuOp → Bindings
  | GpuOp.cmd (OMSetRenderTargets rtv dsv) => { b with rtv := rtv, dsv := dsv }
  | GpuOp.cmd (SetPipelineState p) => { b with pso := some p }
  | GpuOp.cmd (SetGraphicsRootDescriptorTable 0 res) => { b with table0 := some res }
  | GpuOp.cmd (SetGraphicsRootDescriptorTable 1 res) => { b with table1 := some res }
  | _ => b

/-- Bindings after a sequence of commands. -/
def bindOps (b : Bindings) : List GpuOp → Bindings
  | [] => b
  | op :: ops => bindOps (bindOp b op) ops

/-- A barrier record: resource, from-state, to-state. -/
structure Barrier where
  res : Resource
  StateBefore : D3D12_RESOURCE_STATES
  StateAfter : D3D12_RESOURCE_STATES
  deriving DecidableEq, Repr

/-- The barriers of a command list, in recording order. -/
def barriersOf : List Cmd → List Barrier
  | [] => []
  | ResourceBarrier res a b :: cs => ⟨res, a, b⟩ :: barriersOf cs
  | _ :: cs => barriersOf cs

/-- The barriers of a list that act on resource `r`. -/
def barriersOn (r : Resource) (bs : List Barrier) : List Barrier :=
  bs.filter fun b => decide (b.res = r)

/-- Recognises the barrier on `res` from `a` to `b`. -/
def isBarrier (res : Resource) (a b : D3D12_RESOURCE_STATES) : GpuOp → Bool
  | GpuOp.cmd (ResourceBarrier res' a' b') => decide (res' = res) && decide (a' = a) && decide (b' = b)
  | _ => false

/-- Runs a check `P st b seen op` at every position of a timeline: `seen` are
the operations before `op`, latest first, `st` the states tracked through them
and `b` the bindings they establish. -/
def checkFrom (P : (Resource → D3D12_RESOURCE_STATES) → Bindings → List GpuOp → GpuOp → Bool)
    (st : Resource → D3D12_RESOURCE_STATES) (b : Bindings) (acc : List GpuOp) :
    List GpuOp → Bool
  | [] => true
  | op :: ops => P st b acc op && checkFrom P (trackOp st op) (bindOp b op) (op :: acc) ops

/-- The state and binding requirements of the operations of a frame, given the
tracked states `st`, the bindings `b` and the operations `seen` already on the
timeline: the clear and the indexed draw write the bound depth target, the
resolve reads its source and writes its destination, the full-screen draw reads
root table 1 and writes the bound render target, `Present` presents back
buffer `bb`. -/
def opReady (bb : Fin 2) (st : Resource → D3D12_RESOURCE_STATES) (b : Bindings)
    (seen : List GpuOp) : GpuOp → Bool
  | GpuOp.cmd (ClearDepthStencilView v _ _) =>
    decide (v = DepthBufferTexture) && decide (st DepthBufferTexture = DEPTH_WRITE)
  | GpuOp.cmd (DrawIndexedInstanced _ _) =>
    decide (b.pso = some Pipeline.CubeDrawPipeline) &&
    decide (b.dsv = some DepthBufferTexture) &&
    decide (st DepthBufferTexture = DEPTH_WRITE)
  | GpuOp.cmd (ResolveSubresourceRegion dst _ _ src _ _) =>
    decide (src = DepthBufferTexture) && decide (dst = ResolvedDepthBufferTexture) &&
    decide (st DepthBufferTexture = RESOLVE_SOURCE) &&
    decide (st ResolvedDepthBufferTexture = RESOLVE_DEST)
  | GpuOp.cmd (DrawInstanced _ _) =>
    decide (b.pso = some Pipeline.FSQuadDrawPipeline) &&
    decide (b.table1 = some ResolvedDepthBufferTexture) &&
    decide (b.rtv = some (BackBufferTextures bb)) &&
    decide (st ResolvedDepthBufferTexture = PIXEL_SHADER_RESOURCE) &&
    decide (st (BackBufferTextures bb) = RENDER_TARGET)
  | GpuOp.Present i =>
    decide (i = bb) &&
    decide (st (BackBufferTextures bb) = PRESENT) &&
    seen.any (isBarrier (BackBufferTextures bb) RENDER_TARGET PRESENT)
  | _ => true

/-- A barrier's declared from-state equals the tracked state of its resource. -/
def barrierFromTracked (st : Resource → D3D12_RESOURCE_STATES) (_b : Bindings)
    (_pre : List GpuOp) : GpuOp → Bool
  | GpuOp.cmd (ResourceBarrier res before _) => decide (before = st res)
  | _ => true

/-- The operations that make the GPU touch a resource: clear, draws, resolve
and present. -/
def isGpuWork : GpuOp → Bool
  | GpuOp.cmd (ClearDepthStencilView _ _ _) => true
  | GpuOp.cmd (DrawIndexedInstanced _ _) => true
  | GpuOp.cmd (ResolveSubresourceRegion _ _ _ _ _ _) => true
  | GpuOp.cmd (DrawInstanced _ _) => true
  | GpuOp.Present _ => true
  | _ => false

/-! ## CPU/GPU synchronisation of the frame loop -/

/-- Program points of the CPU thread, from the top of the main loop to the
shutdown code (lines 530-656). -/
inductive Pc
  /-- Lines 534-537: `glfwPollEvents`, `glfwWindowShouldClose`. -/
  | PollEvents
  /-- Line 539: `GetCompletedValue() != 1`. -/
  | CheckFence
  /-- Lines 541-542: `SetEventOnCompletion(1, FrameEvent)`, `WaitForSingleObject`. -/
  | WaitFence
  /-- Line 545: `FrameFences[...]->Signal(0)`. -/
  | SignalZero
  /-- Line 547: `CommandAllocators[...]->Reset()`. -/
  | ResetAllocator
  /-- Lines 548-629: `CommandList->Reset(allocator)`, recording, `Close`. -/
  | Record
  /-- Line 632: `ExecuteCommandLists`. -/
  | Execute
  /-- Line 634: `SwapChain->Present(1, 0)`. -/
  | Present
  /-- Line 636: `CommandQueue->Signal(fence, 1)`. -/
  | QueueSignal
  /-- Lines 638-640: advance the allocator index, read the back-buffer index. -/
  | Advance
  /-- Line 643: the index is advanced once more after the loop. -/
  | ExitAdvance
  /-- Line 645: `GetCompletedValue() != 1` of the shutdown code. -/
  | ExitCheck
  /-- Lines 647-648: the shutdown wait. -/
  | ExitWait
  /-- Lines 651-656: teardown. -/
  | Teardown
  deriving DecidableEq, Repr

/-- Work submitted to the command queue. `frame` numbers the loop iteration
that submitted the item (history only); `allocator` is the index of the command
allocator backing the executed list. -/
inductive QueueItem
  | ExecuteCommandLists (frame : Nat) (allocator : Nat)
  | Present (frame : Nat)
  | Signal (fence : Nat) (value : Nat) (frame : Nat)
  deriving DecidableEq, Repr

/-- State of the program and of the GPU queue. The fields after `queue` are
history variables: they record what happened and are never read by a step. -/
structure Sys where
  pc : Pc
  CurrentCommandAllocatorIndex : Nat
  /-- Completed value of `FrameFences[i]`. -/
  FrameFences : Nat → Nat
  /-- Items submitted to `CommandQueue` and not yet completed, oldest first. -/
  queue : List QueueItem
  /-- Number of completed loop iterations, that is the number of the frame of
  the current iteration. -/
  frame : Nat
  /-- The frame last recorded from each command allocator. -/
  allocatorFrame : Nat → Option Nat
  /-- The last frame submitted and the allocator index it used. -/
  lastSubmit : Option (Nat × Nat)
  /-- The value last signalled through the queue for each fence; before any
  signal, the value the fence was created with. -/
  target : Nat → Nat
  /-- Frames whose command list the GPU has completed, oldest first. -/
  completed : List Nat
  /-- Frames whose queued fence signal the GPU has reached, oldest first. -/
  reached : List Nat

/-- Pointwise update of an array modelled as a function. -/
def setAt {α : Type} (f : Nat → α) (i : Nat) (v : α) : Nat → α :=
  fun j => if j = i then v else f j

/-- State when the main loop is entered: both fences created with value 1
(lines 234-235), `CurrentCommandAllocatorIndex = 0` (line 520), nothing
submitted. -/
def Sys.init : Sys where
  pc := Pc.PollEvents
  CurrentCommandAllocatorIndex := 0
  FrameFences := fun _ => 1
  queue := []
  frame := 0
  allocatorFrame := fun _ => none
  lastSubmit := none
  target := fun _ => 1
  completed := []
  reached := []

/-- One step of the CPU thread. `shouldClose` is what `glfwWindowShouldClose`
returns if this step polls it. The event armed by `SetEventOnCompletion(1, _)`
is raised once the fence has reached 1; until then the wait blocks, which
leaves the state unchanged. -/
def cpuStep (s : Sys) (shouldClose : Bool) : Sys :=
  match s.pc with
  | Pc.PollEvents =>
    if shouldClose then { s with pc := Pc.ExitAdvance } else { s with pc := Pc.CheckFence }
  | Pc.CheckFence =>
    if s.FrameFences s.CurrentCommandAllocatorIndex ≠ 1 then { s with pc := Pc.WaitFence }
    else { s with pc := Pc.SignalZero }
  | Pc.WaitFence =>
    if 1 ≤ s.FrameFences s.CurrentCommandAllocatorIndex then { s with pc := Pc.SignalZero }
    else s
  | Pc.SignalZero =>
    { s with
      FrameFences := setAt s.FrameFences s.CurrentCommandAllocatorIndex 0
      pc := Pc.ResetAllocator }
  | Pc.ResetAllocator => { s with pc := Pc.Record }
  | Pc.Record =>
    { s with
      allocatorFrame := setAt s.allocatorFrame s.CurrentCommandAllocatorIndex (some s.frame)
      pc := Pc.Execute }
  | Pc.Execute =>
    { s with
      queue := s.queue ++ [QueueItem.ExecuteCommandLists s.frame s.CurrentCommandAllocatorIndex]
      lastSubmit := some (s.frame, s.CurrentCommandAllocatorIndex)
      pc := Pc.Present }
  | Pc.Present => { s with queue := s.queue ++ [QueueItem.Present s.frame], pc := Pc.QueueSignal }
  | Pc.QueueSignal =>
    { s with
      queue := s.queue ++ [QueueItem.Signal s.CurrentCommandAllocatorIndex 1 s.frame]
      target := setAt s.target s.CurrentCommandAllocatorIndex 1
      pc := Pc.Advance }
  | Pc.Advance =>
    { s with
      CurrentCommandAllocatorIndex := (s.CurrentCommandAllocatorIndex + 1) % 2
      frame := s.frame + 1
      pc := Pc.PollEvents }
  | Pc.ExitAdvance =>
    { s with
      CurrentCommandAllocatorIndex := (s.CurrentCommandAllocatorIndex + 1) % 2
      pc := Pc.ExitCheck }
  | Pc.ExitCheck =>
    if s.FrameFences s.CurrentCommandAllocatorIndex ≠ 1 then { s with pc := Pc.ExitWait }
    else { s with pc := Pc.Teardown }
  | Pc.ExitWait =>
    if 1 ≤ s.FrameFences s.CurrentCommandAllocatorIndex then { s with pc := Pc.Teardown }
    else s
  | Pc.Teardown => s

/-- One step of the GPU: the oldest item of the queue completes. An executed
command list is complete, a present has no effect on the fences, a signal
sets its fence to its value. With an empty queue nothing happens. -/
def gpuStep (s : Sys) : Sys :=
  match s.queue with
  | [] => s
  | QueueItem.ExecuteCommandLists f _ :: rest =>
    { s with queue := rest, completed := s.completed ++ [f] }
  | QueueItem.Present _ :: rest => { s with queue := rest }
  | QueueItem.Signal i v f :: rest =>
    { s with queue := rest, FrameFences := setAt s.FrameFences i v, reached := s.reached ++ [f] }

/-- The two timelines: the CPU thread takes a step, or the GPU completes the
oldest queue item. -/
inductive Event
  | cpu (shouldClose : Bool)
  | gpu
  deriving DecidableEq, Repr

/-- One step of the system. -/
def step (s : Sys) : Event → Sys
  | Event.cpu shouldClose => cpuStep s shouldClose
  | Event.gpu => gpuStep s

/-- The state reached from the loop entry under a schedule. -/
def run (sched : List Event) : Sys :=
  sched.foldl step Sys.init

/-- Number of submitted command lists that the GPU has not completed. -/
def inFlight (q : List QueueItem) : Nat :=
  match q with
  | [] => 0
  | QueueItem.ExecuteCommandLists _ _ :: rest => inFlight rest + 1
  | _ :: rest => inFlight rest

/-- The item at position `n` of the stream of all submissions: frame `n / 3`
submits its command list, its present and its signal, in this order. -/
def itemAt (n : Nat) : QueueItem :=
  if n % 3 = 0 then QueueItem.ExecuteCommandLists (n / 3) (n / 3 % 2)
  else if n % 3 = 1 then QueueItem.Present (n / 3)
  else QueueItem.Signal (n / 3 % 2) 1 (n / 3)

/-! ### Description of the reachable states

Every reachable state is determined by its program point, its frame number
and the number `p` of queue items the GPU has completed. The functions below
give each component of the state from these three. -/

/-- Iterations whose `Signal(0)` (line 545) has run: 1 more than the frame
number once the current iteration is past it. -/
def Pc.started : Pc → Nat
  | Pc.ResetAllocator => 1
  | Pc.Record => 1
  | Pc.Execute => 1
  | Pc.Present => 1
  | Pc.QueueSignal => 1
  | Pc.Advance => 1
  | _ => 0

/-- Whether the current iteration has recorded its command list. -/
def Pc.recorded : Pc → Nat
  | Pc.Execute => 1
  | Pc.Present => 1
  | Pc.QueueSignal => 1
  | Pc.Advance => 1
  | _ => 0

/-- Whether the current iteration has submitted its command list. -/
def Pc.submitted : Pc → Nat
  | Pc.Present => 1
  | Pc.QueueSignal => 1
  | Pc.Advance => 1
  | _ => 0

/-- Number of queue items the current iteration has submitted. -/
def Pc.issued : Pc → Nat
  | Pc.Present => 1
  | Pc.QueueSignal => 2
  | Pc.Advance => 3
  | _ => 0

/-- Whether the index has been advanced by the shutdown code (line 643). -/
def Pc.exited : Pc → Nat
  | Pc.ExitCheck => 1
  | Pc.ExitWait => 1
  | Pc.Teardown => 1
  | _ => 0

/-- Least number of queue items the GPU must have completed at a program
point of frame `k`. -/
def Pc.floor (k : Nat) : Pc → Nat
  | Pc.SignalZero => 3 * (k - 1)
  | Pc.ResetAllocator => 3 * (k - 1)
  | Pc.Record => 3 * (k - 1)
  | Pc.Execute => 3 * (k - 1)
  | Pc.Present => 3 * (k - 1)
  | Pc.QueueSignal => 3 * (k - 1)
  | Pc.Advance => 3 * (k - 1)
  | Pc.Teardown => 3 * k
  | _ => 3 * (k - 2)

/-- Fence `t` is at 0: one of the last two started iterations used slot `t`
and the GPU has not reached its signal (item `3 * f + 2`), `m` iterations
having started and `p` items being complete. -/
def fenceLow (m p t : Nat) : Prop :=
  (1 ≤ m ∧ (m - 1) % 2 = t ∧ p ≤ 3 * (m - 1) + 2) ∨
  (2 ≤ m ∧ (m - 2) % 2 = t ∧ p ≤ 3 * (m - 2) + 2)

instance (m p t : Nat) : Decidable (fenceLow m p t) := by
  unfold fenceLow
  infer_instance

/-- The last of the first `m` frames that used slot `t`. -/
def lastOn (m t : Nat) : Option Nat :=
  if 1 ≤ m ∧ (m - 1) % 2 = t then some (m - 1)
  else if 2 ≤ m ∧ (m - 2) % 2 = t then some (m - 2)
  else none

/-- The invariant of the frame loop: the state is the one described by its
program point, its frame number and a count `p` of completed queue items. -/
def Inv (s : Sys) : Prop :=
  ∃ p : Nat,
    s.pc.floor s.frame ≤ p ∧
    p ≤ 3 * s.frame + s.pc.issued ∧
    s.queue = (List.range' p (3 * s.frame + s.pc.issued - p)).map itemAt ∧
    s.completed = List.range ((p + 2) / 3) ∧
    s.reached = List.range (p / 3) ∧
    (∀ t, s.FrameFences t = if fenceLow (s.frame + s.pc.started) p t then 0 else 1) ∧
    (∀ t, s.allocatorFrame t = lastOn (s.frame + s.pc.recorded) t) ∧
    s.lastSubmit = (if s.frame + s.pc.submitted = 0 then none
      else some (s.frame + s.pc.submitted - 1, (s.frame + s.pc.submitted - 1) % 2)) ∧
    (∀ t, s.target t = 1) ∧
    s.CurrentCommandAllocatorIndex = (s.frame + s.pc.exited) % 2 ∧
    inFlight s.queue + (p + 2) / 3 = s.frame + s.pc.submitted

/-! ## The depth-visualisation pixel shader and the depth resolve

Depth values are modelled as rationals: every finite `float` is one, and the
comparisons `==`, `<`, `>` the shader makes are exact on them. -/

/-- An HLSL `float4`. -/
structure float4 where
  x : ℚ
  y : ℚ
  z : ℚ
  w : ℚ
  deriving DecidableEq, Repr

/-- `PS` of `FSQuadPixelShaderSource` (lines 63-70). `DepthBufferTexture` is
the bound resolved depth texture and `px`, `py` the pixel that
`int3(Position.xy, 0)` addresses. -/
def PS (DepthBufferTexture : Nat → Nat → ℚ) (px py : Nat) : float4 :=
  let PixelDepth := DepthBufferTexture px py
  ⟨if PixelDepth = 0 then 1 else 0,
   if PixelDepth = 1 then 1 else 0,
   if 0 < PixelDepth ∧ PixelDepth < 1 then 1 else 0,
   1⟩

/-- Contents of the multisample depth target: the samples of each texel, as
many as `SampleDesc.Count` of the texture (line 294). -/
abbrev MultisampleTexture := Nat → Nat → Fin (sampleCount Resource.DepthBufferTexture) → ℚ

/-- Modelled from the spec: the reduction a `D3D12_RESOLVE_MODE` applies to the
samples of one texel; the Direct3D 12 runtime that implements
`ResolveSubresourceRegion` is not part of the repository. `MAX` and `MIN` give
the greatest and the least sample, `AVERAGE` the mean of the samples,
`DECOMPRESS` the first sample. -/
def resolveSamples (mode : D3D12_RESOLVE_MODE) : List ℚ → ℚ
  | [] => 0
  | s :: rest =>
    match mode with
    | D3D12_RESOLVE_MODE.MAX => rest.foldl max s
    | D3D12_RESOLVE_MODE.MIN => rest.foldl min s
    | D3D12_RESOLVE_MODE.AVERAGE => (s :: rest).sum / ((s :: rest).length : ℚ)
    | D3D12_RESOLVE_MODE.DECOMPRESS => s

/-- Modelled from the spec: the effect of `ResolveSubresourceRegion` on the
destination texture. The texels of the source rectangle `rect`, placed at
`(dstX, dstY)`, receive the reduction of their samples; the other texels keep
their value. -/
def resolveRegion (dst : Nat → Nat → ℚ) (dstX dstY : Nat) (src : MultisampleTexture)
    (rect : Rect) (mode : D3D12_RESOLVE_MODE) : Nat → Nat → ℚ :=
  fun x y =>
    if dstX ≤ x ∧ x < dstX + (rect.right - rect.left) ∧
        dstY ≤ y ∧ y < dstY + (rect.bottom - rect.top) then
      resolveSamples mode (List.ofFn (src (rect.left + (x - dstX)) (rect.top + (y - dstY))))
    else dst x y

/-- The resolved depth texture after the resolves of a command list, from the
contents `src` of the multisample depth target and `dst` of the resolved
texture. -/
def execResolves (src : MultisampleTexture) (dst : Nat → Nat → ℚ) : List Cmd → Nat → Nat → ℚ
  | [] => dst
  | ResolveSubresourceRegion _ dstX dstY _ rect mode :: cs =>
    execResolves src (resolveRegion dst dstX dstY src rect mode) cs
  | _ :: cs => execResolves src dst cs

/-- The resolve commands of a command list. -/
def resolvesOf : List Cmd → List Cmd
  | [] => []
  | ResolveSubresourceRegion dst dstX dstY src rect mode :: cs =>
    ResolveSubresourceRegion dst dstX dstY src rect mode :: resolvesOf cs
  | _ :: cs => resolvesOf cs

/-- A texel with one sample 0.3 and seven samples 0.9. -/
def sampleTexel : MultisampleTexture :=
  fun _ _ i => if i.val = 0 then 3 / 10 else 9 / 10

/-! ## Startup: error handling, shader compilation, adapter selection -/

/-- An `HRESULT`, as the signed 32-bit value it denotes. -/
abbrev HRESULT := Int

/-- The signed 32-bit value of a 32-bit pattern, as for `(HRESULT)0x887A000A`
or `(int32_t)` of a `uint32_t`. -/
def toInt32 (u : Nat) : Int :=
  if u % 2 ^ 32 < 2 ^ 31 then (u % 2 ^ 32 : Nat) else ((u % 2 ^ 32 : Nat) : Int) - 2 ^ 32

/-- Modelled from the spec: the `FAILED` macro of the Windows headers, which
are not part of the repository. A graphics-API call reports failure by a
failure code, an `HRESULT` that is negative as a signed 32-bit value. -/
def FAILED (hr : HRESULT) : Prop := hr < 0

instance (hr : HRESULT) : Decidable (FAILED hr) := by
  unfold FAILED
  infer_instance

/-- Modelled from the spec: the success code `S_OK` of the Windows headers,
which are not part of the repository. -/
def S_OK : HRESULT := 0

/-- Modelled from the spec: the adapter-not-found code `DXGI_ERROR_NOT_FOUND`,
`0x887A0002` in the Windows headers, which are not part of the repository. -/
def DXGI_ERROR_NOT_FOUND : HRESULT := toInt32 0x887A0002

/-- Modelled from the spec: the "device busy/still drawing" code
`DXGI_ERROR_WAS_STILL_DRAWING`, `0x887A000A` in the Windows headers, which are
not part of the repository. -/
def DXGI_ERROR_WAS_STILL_DRAWING : HRESULT := toInt32 0x887A000A

/-- Modelled from the spec: the failure code `E_OUTOFMEMORY`, `0x8007000E` in
the Windows headers, which are not part of the repository. -/
def E_OUTOFMEMORY : HRESULT := toInt32 0x8007000E

/-- What the process shows or runs on the way. -/
inductive Effect
  /-- The error box of `CheckDXCallResult` (line 212 of `DXHelpers.h`): the
  text of the wrapped call and the error code, by name when
  `GetDXErrorMessageFromHRESULT` knows it, else as the number. -/
  | MessageBox (Function : String) (codeName : Option String) (hr : HRESULT)
  /-- Text written to `std::wcout`. -/
  | wcout (text : String)
  /-- A command run through `system`. -/
  | system (command : String)
  deriving DecidableEq, Repr

/-- How a piece of the startup code ends: it returns to its caller, or it ends
the process through `ExitProcess(uExitCode)`. -/
inductive Outcome (α : Type)
  | returned (effects : List Effect) (value : α)
  | ExitProcess (effects : List Effect) (uExitCode : Nat)
  deriving DecidableEq, Repr

/-- Sequencing: the rest runs only if the first part returned. -/
def Outcome.andThen {α β : Type} (o : Outcome α) (rest : α → Outcome β) : Outcome β :=
  match o with
  | Outcome.ExitProcess effects code => Outcome.ExitProcess effects code
  | Outcome.returned effects a =>
    match rest a with
    | Outcome.ExitProcess more code => Outcome.ExitProcess (effects ++ more) code
    | Outcome.returned more b => Outcome.returned (effects ++ more) b

/-- `CheckDXCallResult` (`DXHelpers.h` lines 198-216). `names` is the table of
`GetDXErrorMessageFromHRESULT`, whose case labels are constants of the Windows
headers. -/
def CheckDXCallResult (names : HRESULT → Option String) (hr : HRESULT) (Function : String) :
    Outcome Unit :=
  if FAILED hr then Outcome.ExitProcess [Effect.MessageBox Function (names hr) hr] 0
  else Outcome.returned [] ()

/-- A use of the wrapper, with the number of times the wrapped call was made. -/
structure Wrapped where
  outcome : Outcome Unit
  calls : Nat
  deriving DecidableEq, Repr

/-- `SAFE_DX(Func)` (`DXHelpers.h` line 3) expands to
`CheckDXCallResult(Func, u#Func);`: the call is made once and its result
checked. `Func n` is the `HRESULT` the call would return the `n`-th time it is
made. -/
def SAFE_DX (names : HRESULT → Option String) (Func : Nat → HRESULT) (text : String) :
    Wrapped :=
  ⟨CheckDXCallResult names (Func 0) text, 1⟩

/-- What `D3DCompile` hands back (line 75): its `HRESULT`, the bytecode blob
and the error-message blob; either blob can be null. -/
structure D3DCompileResult where
  hr : HRESULT
  ShaderByteCodeBlob : Option (List Nat)
  ErrorBlob : Option String
  deriving DecidableEq, Repr

/-- `CompileShader` (lines 72-82), on the result of its `D3DCompile` call: it
pauses and ends the process when the call failed and produced an error blob;
otherwise it returns, leaving the bytecode blob to `main`. -/
def CompileShader (r : D3DCompileResult) : Outcome (Option (List Nat)) :=
  if FAILED r.hr ∧ r.ErrorBlob.isSome then
    Outcome.ExitProcess [Effect.system "PAUSE.EXE"] 0
  else Outcome.returned [] r.ShaderByteCodeBlob

/-- What the command line asks for (lines 128, 137, 167): an adapter index, a
vendor name, or neither. The index is the `UINT` passed to `EnumAdapters`. -/
inductive AdapterChoice
  | adapterindex (AdapterIndex : Nat)
  | adaptervendor
  | default
  deriving DecidableEq, Repr

/-- Modelled from the spec: `Factory->EnumAdapters(i, &Adapter)` of DXGI, which
is not part of the repository, on a system whose adapters have the
descriptions `adapters`: the adapter at `i`, or `DXGI_ERROR_NOT_FOUND` past
the last one. -/
def EnumAdapters (adapters : List String) (i : Nat) : HRESULT × Option String :=
  match adapters.get? i with
  | some a => (S_OK, some a)
  | none => (DXGI_ERROR_NOT_FOUND, none)

/-- The search loop of the vendor path (lines 149-159): starting at
`AdapterIndex`, the index of the first adapter whose description contains the
vendor name, or the index past the last adapter. `hasVendor` is the substring
test of line 156; `GetDesc` (line 154) is taken to succeed. -/
def vendorLoop (hasVendor : String → Bool) : List String → Nat → Nat
  | [], AdapterIndex => AdapterIndex
  | a :: rest, AdapterIndex =>
    if hasVendor a then AdapterIndex else vendorLoop hasVendor rest (AdapterIndex + 1)

/-- The message of line 163. -/
def vendorNotFoundMessage : String :=
  "Не найдено графического адаптера с заданным производителем"

/-- `ExitProcess(-1)` (line 164): the exit code is a `UINT`. -/
def exitCodeMinusOne : Nat := 2 ^ 32 - 1

/-- Adapter selection (lines 126-170): the chosen adapter, or the end of the
process. -/
def selectAdapter (names : HRESULT → Option String) (hasVendor : String → Bool)
    (adapters : List String) : AdapterChoice → Outcome (Option String)
  | AdapterChoice.adapterindex AdapterIndex =>
    (CheckDXCallResult names (EnumAdapters adapters AdapterIndex).1
        "Factory->EnumAdapters(AdapterIndex, &Adapter)").andThen
      fun _ => Outcome.returned [] (EnumAdapters adapters AdapterIndex).2
  | AdapterChoice.adaptervendor =>
    if (EnumAdapters adapters (vendorLoop hasVendor adapters 0)).1 = DXGI_ERROR_NOT_FOUND then
      Outcome.ExitProcess [Effect.wcout vendorNotFoundMessage] exitCodeMinusOne
    else Outcome.returned [] (EnumAdapters adapters (vendorLoop hasVendor adapters 0)).2
  | AdapterChoice.default =>
    (CheckDXCallResult names (EnumAdapters adapters 0).1
        "Factory->EnumAdapters(0, &Adapter)").andThen
      fun _ => Outcome.returned [] (EnumAdapters adapters 0).2

/-! ## Window size and position -/

/-- Initial value of the global `windowWidth` (line 28). -/
def windowWidth : Nat := 1280

/-- Initial value of the global `windowHeight` (line 29). -/
def windowHeight : Nat := 720

/-- The clamp of lines 96-99: the values of `windowWidth` and `windowHeight`
from then on, for a primary display of `screenW` by `screenH`. -/
def clampWindow (screenW screenH : Nat) : Nat × Nat :=
  (if windowWidth > screenW then screenW else windowWidth,
   if windowHeight > screenH then screenH else windowHeight)

/-- Subtraction of `uint32_t` values. -/
def sub32 (a b : Nat) : Nat := (a % 2 ^ 32 + 2 ^ 32 - b % 2 ^ 32) % 2 ^ 32

/-- The window position of lines 112-113: the `uint32_t` difference shifted
right by one, stored in an `int32_t`. -/
def windowPos (screenW screenH : Nat) : Int × Int :=
  (toInt32 (sub32 screenW (clampWindow screenW screenH).1 >>> 1),
   toInt32 (sub32 screenH (clampWindow screenW screenH).2 >>> 1))

/-- Width, height and sample count of a surface. -/
structure SurfaceDesc where
  Width : Nat
  Height : Nat
  SampleCount : Nat
  deriving DecidableEq, Repr

/-- The size passed to `glfwCreateWindow` (line 104), whose parameters are
`int`. -/
def glfwCreateWindowSize (w h : Nat) : Int × Int := (toInt32 w, toInt32 h)

/-- `SwapChainDesc` (lines 216-223). -/
def SwapChainDesc (w h : Nat) : SurfaceDesc := ⟨w, h, 1⟩

/-- `ResourceDesc` of the multisample depth target (lines 285-296). -/
def DepthBufferTextureDesc (w h : Nat) : SurfaceDesc := ⟨w, h, 8⟩

/-- `ResourceDesc` of the resolved depth texture (lines 322-332). -/
def ResolvedDepthBufferTextureDesc (w h : Nat) : SurfaceDesc := ⟨w, h, 1⟩

/-! ## The full-screen quad and the cube -/

/-- `VS` of `FSQuadVertexShaderSource` (lines 57-61); `%` and `/` are taken on
the unsigned vertex index. -/
def VS (VertexID : Nat) : float4 :=
  ⟨-1 + 2 * ((VertexID % 2 : Nat) : ℚ), 1 - 2 * ((VertexID / 2 : Nat) : ℚ), 0, 1⟩

/-- `InputLayout.NumElements` of each pipeline: 1 for the cube (line 486), 0
for the full-screen quad, whose description is zeroed (line 504) and sets no
input layout. -/
def InputLayoutNumElements : Pipeline → Nat
  | Pipeline.CubeDrawPipeline => 1
  | Pipeline.FSQuadDrawPipeline => 0

/-- The triangles of a triangle strip of `vertexCount` vertices, by vertex
index. -/
def stripTriangles (vertexCount : Nat) : List (Nat × Nat × Nat) :=
  (List.range (vertexCount - 2)).map fun i => (i, i + 1, i + 2)

/-- Position of a vertex on the screen plane. -/
def float4.xy (v : float4) : ℚ × ℚ := (v.x, v.y)

/-- The edge function of the edge from `a` to `b` at `p`: its sign tells the
side of the edge on which `p` lies. -/
def edgeFunction (a b p : ℚ × ℚ) : ℚ :=
  (b.1 - a.1) * (p.2 - a.2) - (b.2 - a.2) * (p.1 - a.1)

/-- The point `p` lies in the triangle `a b c`, edges included: it is on the
same side of the three edges. -/
def inTriangle (a b c p : ℚ × ℚ) : Prop :=
  (0 ≤ edgeFunction a b p ∧ 0 ≤ edgeFunction b c p ∧ 0 ≤ edgeFunction c a p) ∨
  (edgeFunction a b p ≤ 0 ∧ edgeFunction b c p ≤ 0 ∧ edgeFunction c a p ≤ 0)

instance (a b c p : ℚ × ℚ) : Decidable (inTriangle a b c p) := by
  unfold inTriangle
  infer_instance

/-- The point `p` is covered by one of the triangles of the full-screen strip
of `vertexCount` vertices. -/
def coveredByStrip (vertexCount : Nat) (p : ℚ × ℚ) : Prop :=
  ∃ t ∈ stripTriangles vertexCount,
    inTriangle (VS t.1).xy (VS t.2.1).xy (VS t.2.2).xy p

/-- A point or vector of the cube's space. -/
abbrev XMFLOAT3 := ℚ × ℚ × ℚ

/-- The cube's vertex buffer (lines 393-401). -/
def Vertices : List XMFLOAT3 :=
  [(1, 1, 1), (-1, 1, 1), (1, -1, 1), (-1, -1, 1),
   (1, 1, -1), (-1, 1, -1), (1, -1, -1), (-1, -1, -1)]

/-- The cube's index buffer (lines 407-424). -/
def Indices : List Nat :=
  [5, 4, 7, 7, 4, 6,
   0, 1, 2, 2, 1, 3,
   4, 0, 6, 6, 0, 2,
   1, 5, 3, 3, 5, 7,
   1, 0, 5, 5, 0, 4,
   2, 3, 6, 6, 3, 7]

/-- The triangles of a triangle list, by vertex index. -/
def listTriangles : List Nat → List (Nat × Nat × Nat)
  | a :: b :: c :: rest => (a, b, c) :: listTriangles rest
  | _ => []

/-- The vertex an index refers to. -/
def vertexAt (i : Nat) : XMFLOAT3 := Vertices.getD i (0, 0, 0)

/-- Difference of two points. -/
def XMFLOAT3.sub (a b : XMFLOAT3) : XMFLOAT3 := (a.1 - b.1, a.2.1 - b.2.1, a.2.2 - b.2.2)

/-- Cross product. -/
def XMFLOAT3.cross (u v : XMFLOAT3) : XMFLOAT3 :=
  (u.2.1 * v.2.2 - u.2.2 * v.2.1, u.2.2 * v.1 - u.1 * v.2.2, u.1 * v.2.1 - u.2.1 * v.1)

/-- Dot product. -/
def XMFLOAT3.dot (u v : XMFLOAT3) : ℚ := u.1 * v.1 + u.2.1 * v.2.1 + u.2.2 * v.2.2

/-- Centroid of a triangle. -/
def centroid (a b c : XMFLOAT3) : XMFLOAT3 :=
  ((a.1 + b.1 + c.1) / 3, (a.2.1 + b.2.1 + c.2.1) / 3, (a.2.2 + b.2.2 + c.2.2) / 3)

/-- Coordinate `axis` (0, 1 or 2) of a point. -/
def XMFLOAT3.coord (v : XMFLOAT3) (axis : Nat) : ℚ :=
  match axis with
  | 0 => v.1
  | 1 => v.2.1
  | _ => v.2.2

/-- The six faces of the cube `[-1,1]^3`: an axis and the side, -1 or 1. -/
def cubeFaces : List (Nat × ℚ) :=
  [(0, 1), (0, -1), (1, 1), (1, -1), (2, 1), (2, -1)]

/-- The triangle lies on the face: its three vertices have the face's
coordinate. -/
def onFace (face : Nat × ℚ) (t : Nat × Nat × Nat) : Bool :=
  decide ((vertexAt t.1).coord face.1 = face.2) &&
  decide ((vertexAt t.2.1).coord face.1 = face.2) &&
  decide ((vertexAt t.2.2).coord face.1 = face.2)

/-- The normal `(b - a) x (c - a)` of a triangle points out of the cube: its
dot product with the centroid is positive. -/
def facesOutward (t : Nat × Nat × Nat) : Bool :=
  decide (0 < XMFLOAT3.dot
    (XMFLOAT3.cross (XMFLOAT3.sub (vertexAt t.2.1) (vertexAt t.1))
      (XMFLOAT3.sub (vertexAt t.2.2) (vertexAt t.1)))
    (centroid (vertexAt t.1) (vertexAt t.2.1) (vertexAt t.2.2)))

/-! ## Writes and shader reads of a resource -/

/-- The operation writes resource `r`, under the bindings `b`: a clear writes
its depth target, a draw writes the bound render target and depth target, a
resolve writes its destination. -/
def writesTo (r : Resource) (b : Bindings) : GpuOp → Bool
  | GpuOp.cmd (ClearDepthStencilView dsv _ _) => decide (dsv = r)
  | GpuOp.cmd (DrawIndexedInstanced _ _) => decide (b.rtv = some r) || decide (b.dsv = some r)
  | GpuOp.cmd (DrawInstanced _ _) => decide (b.rtv = some r) || decide (b.dsv = some r)
  | GpuOp.cmd (ResolveSubresourceRegion dst _ _ _ _ _) => decide (dst = r)
  | _ => false

/-- Some operation of the sequence writes `r`; `b` are the bindings at its
start. -/
def writtenIn (r : Resource) (b : Bindings) : List GpuOp → Bool
  | [] => false
  | op :: ops => writesTo r b op || writtenIn r (bindOp b op) ops

/-- The operation reads `r` as a pixel-shader resource, under the bindings
`b`: it is a draw with the full-screen pipeline, the only one with a pixel
shader (line 510), which loads from the texture of root table 1. -/
def shaderReads (r : Resource) (b : Bindings) : GpuOp → Bool
  | GpuOp.cmd (DrawIndexedInstanced _ _) =>
    decide (b.pso = some Pipeline.FSQuadDrawPipeline) && decide (b.table1 = some r)
  | GpuOp.cmd (DrawInstanced _ _) =>
    decide (b.pso = some Pipeline.FSQuadDrawPipeline) && decide (b.table1 = some r)
  | _ => false

/-- Every resource of the program. -/
def allResources : List Resource :=
  [DepthBufferTexture, ResolvedDepthBufferTexture, BackBufferTextures 0, BackBufferTextures 1,
   VertexBuffer, IndexBuffer, ConstantBuffer]

/-- Recognises a resolve that writes `res`. -/
def isResolveInto (res : Resource) : GpuOp → Bool
  | GpuOp.cmd (ResolveSubresourceRegion dst _ _ _ _ _) => decide (dst = res)
  | _ => false

/-- A barrier to `PIXEL_SHADER_RESOURCE` is on the resolved depth texture,
from `RESOLVE_DEST`, which is the tracked state, and a resolve into the texture
is among the operations `seen` before it. -/
def shaderReadBarrierOK (st : Resource → D3D12_RESOURCE_STATES) (_b : Bindings)
    (seen : List GpuOp) : GpuOp → Bool
  | GpuOp.cmd (ResourceBarrier res before PIXEL_SHADER_RESOURCE) =>
    decide (res = ResolvedDepthBufferTexture) && decide (before = RESOLVE_DEST) &&
    decide (st res = RESOLVE_DEST) && seen.any (isResolveInto res)
  | _ => true

/-- Every resource the operation reads as a pixel-shader resource is the
resolved depth texture, tracked in `PIXEL_SHADER_RESOURCE`, with a resolve into
it among the operations `seen` before. -/
def shaderReadOK (st : Resource → D3D12_RESOURCE_STATES) (b : Bindings)
    (seen : List GpuOp) (op : GpuOp) : Bool :=
  allResources.all fun r =>
    !shaderReads r b op ||
      (decide (r = ResolvedDepthBufferTexture) && decide (st r = PIXEL_SHADER_RESOURCE) &&
        seen.any (isResolveInto r))

/-- The triangles of the cube that lie on a face. -/
def faceTriangles (face : Nat × ℚ) : List (Nat × Nat × Nat) :=
  (listTriangles Indices).filter (onFace face)

/-- The vertex indices of a triangle. -/
def triVertices (t : Nat × Nat × Nat) : List Nat := [t.1, t.2.1, t.2.2]

/-- Number of coordinates in which two points differ. -/
def differingCoords (a b : XMFLOAT3) : Nat :=
  ([0, 1, 2].filter fun axis => decide (a.coord axis ≠ b.coord axis)).length

/-- The face is tiled by two triangles: exactly two triangles lie on it, they
use four vertices between them, and the two vertices they share are opposite
corners of the face (they differ in two coordinates), so the triangles meet
along a diagonal. -/
def tilesFace (face : Nat × ℚ) : Bool :=
  match faceTriangles face with
  | [t, u] =>
    ((triVertices t ++ triVertices u).eraseDups.length == 4) &&
    (match (triVertices t).filter (fun i => decide (i ∈ triVertices u)) with
     | [i, j] => differingCoords (vertexAt i) (vertexAt j) == 2
     | _ => false)
  | _ => false

/-! ## Lemmas on state tracking -/

theorem checkFrom_split
    (P : (Resource → D3D12_RESOURCE_STATES) → Bindings → List GpuOp → GpuOp → Bool)
    (pre post : List GpuOp) (op : GpuOp) :
    ∀ st b acc, checkFrom P st b acc (pre ++ op :: post) = true →
      P (trackOps st pre) (bindOps b pre) (pre.reverse ++ acc) op = true := by
  induction pre with
  | nil =>
    intro st b acc hc
    simp only [List.nil_append, checkFrom, Bool.and_eq_true] at hc
    simpa [trackOps, bindOps] using hc.1
  | cons x xs ih =>
    intro st b acc hc
    simp only [List.cons_append, checkFrom, Bool.and_eq_true] at hc
    have := ih _ _ (x :: acc) hc.2
    simpa [trackOps, bindOps] using this

theorem trackOps_append (st : Resource → D3D12_RESOURCE_STATES) (a b : List GpuOp) :
    trackOps st (a ++ b) = trackOps (trackOps st a) b := by
  induction a generalizing st with
  | nil => rfl
  | cons x xs ih => simp [trackOps, ih]

theorem trackOps_eq_lastBarrierTo (hist : List GpuOp) :
    ∀ (st : Resource → D3D12_RESOURCE_STATES) (r : Resource),
      trackOps st hist r = (lastBarrierTo r hist).getD (st r) := by
  induction hist with
  | nil => intro st r; rfl
  | cons op ops ih =>
    intro st r
    rw [trackOps, ih]
    cases op with
    | Present i => simp only [lastBarrierTo, trackOp]; cases lastBarrierTo r ops <;> rfl
    | cmd c =>
      cases c with
      | ResourceBarrier res a b =>
        simp only [lastBarrierTo, trackOp]
        cases lastBarrierTo r ops with
        | some s => rfl
        | none => by_cases hr : r = res <;> simp [hr]
      | _ => simp only [lastBarrierTo, trackOp]; cases lastBarrierTo r ops <;> rfl

theorem trackOps_creation_eq_trackedState (hist : List GpuOp) (r : Resource) :
    trackOps creationState hist r = trackedState hist r :=
  trackOps_eq_lastBarrierTo hist creationState r

theorem trackOps_frameTimeline (w h : Nat) (bb : Fin 2) :
    trackOps creationState (frameTimeline w h bb) = creationState := by
  funext r
  cases r with
  | BackBufferTextures i => fin_cases bb <;> fin_cases i <;> rfl
  | _ => rfl

theorem trackOps_runTimeline (w h : Nat) (done : List (Fin 2)) :
    trackOps creationState (runTimeline w h done) = creationState := by
  induction done with
  | nil => rfl
  | cons bb rest ih => rw [runTimeline, trackOps_append, trackOps_frameTimeline, ih]

theorem trackedState_run_append (w h : Nat) (done : List (Fin 2)) (pre : List GpuOp)
    (r : Resource) :
    trackedState (runTimeline w h done ++ pre) r = trackOps creationState pre r := by
  rw [← trackOps_creation_eq_trackedState, trackOps_append, trackOps_runTimeline]

theorem checkFrom_opReady (w h : Nat) (bb : Fin 2) :
    checkFrom (opReady bb) creationState Bindings.reset [] (frameTimeline w h bb) = true := by
  fin_cases bb <;> rfl

theorem checkFrom_barrierFromTracked (w h : Nat) (bb : Fin 2) :
    checkFrom barrierFromTracked creationState Bindings.reset [] (frameTimeline w h bb)
      = true := by
  fin_cases bb <;> rfl

theorem runTimeline_append (w h : Nat) (a b : List (Fin 2)) :
    runTimeline w h (a ++ b) = runTimeline w h a ++ runTimeline w h b := by
  induction a with
  | nil => rfl
  | cons x xs ih => simp [runTimeline, ih]

theorem mem_of_any_isBarrier (res : Resource) (a b : D3D12_RESOURCE_STATES)
    (l : List GpuOp) (hl : l.any (isBarrier res a b) = true) :
    GpuOp.cmd (ResourceBarrier res a b) ∈ l := by
  rw [List.any_eq_true] at hl
  obtain ⟨x, hx, hb⟩ := hl
  cases x with
  | Present i => simp [isBarrier] at hb
  | cmd c =>
    cases c <;> simp [isBarrier] at hb
    obtain ⟨⟨h1, h2⟩, h3⟩ := hb
    subst h1 h2 h3
    exact hx

/-! ## Claims on the recorded barriers -/

/-- C1: in every frame, after any number of earlier frames, each GPU operation
sits at a point of the queue timeline where the barriers before it leave its
resources in the state it needs: the depth clear and the cube draw find the
bound multisample depth target in DEPTH_WRITE, the resolve finds its source in
RESOLVE_SOURCE and its destination in RESOLVE_DEST, the full-screen draw finds
the resolved texture in PIXEL_SHADER_RESOURCE and the bound current back buffer
in RENDER_TARGET, and Present comes after the barrier that returned the current
back buffer to PRESENT. These five operations are the GPU work of the frame. -/
theorem frame_ops_find_needed_states (w h : Nat) (done : List (Fin 2)) (bb : Fin 2)
    (pre post : List GpuOp) (op : GpuOp)
    (hsplit : frameTimeline w h bb = pre ++ op :: post) :
    (frameTimeline w h bb).filter isGpuWork =
      [GpuOp.cmd (ClearDepthStencilView DepthBufferTexture 1 0),
       GpuOp.cmd (DrawIndexedInstanced 36 1),
       GpuOp.cmd (ResolveSubresourceRegion ResolvedDepthBufferTexture 0 0 DepthBufferTexture
         ⟨0, 0, w, h⟩ D3D12_RESOLVE_MODE.MAX),
       GpuOp.cmd (DrawInstanced 4 1),
       GpuOp.Present bb] ∧
    (∀ v d s, op = GpuOp.cmd (ClearDepthStencilView v d s) →
      v = DepthBufferTexture ∧
      trackedState (runTimeline w h done ++ pre) DepthBufferTexture = DEPTH_WRITE) ∧
    (∀ n m, op = GpuOp.cmd (DrawIndexedInstanced n m) →
      (bindOps Bindings.reset pre).pso = some Pipeline.CubeDrawPipeline ∧
      (bindOps Bindings.reset pre).dsv = some DepthBufferTexture ∧
      trackedState (runTimeline w h done ++ pre) DepthBufferTexture = DEPTH_WRITE) ∧
    (∀ dst x y src rect mode, op = GpuOp.cmd (ResolveSubresourceRegion dst x y src rect mode) →
      src = DepthBufferTexture ∧ dst = ResolvedDepthBufferTexture ∧
      trackedState (runTimeline w h done ++ pre) DepthBufferTexture = RESOLVE_SOURCE ∧
      trackedState (runTimeline w h done ++ pre) ResolvedDepthBufferTexture = RESOLVE_DEST) ∧
    (∀ n m, op = GpuOp.cmd (DrawInstanced n m) →
      (bindOps Bindings.reset pre).pso = some Pipeline.FSQuadDrawPipeline ∧
      (bindOps Bindings.reset pre).table1 = some ResolvedDepthBufferTexture ∧
      (bindOps Bindings.reset pre).rtv = some (BackBufferTextures bb) ∧
      trackedState (runTimeline w h done ++ pre) ResolvedDepthBufferTexture
        = PIXEL_SHADER_RESOURCE ∧
      trackedState (runTimeline w h done ++ pre) (BackBufferTextures bb) = RENDER_TARGET) ∧
    (∀ i, op = GpuOp.Present i →
      i = bb ∧
      trackedState (runTimeline w h done ++ pre) (BackBufferTextures bb) = PRESENT ∧
      GpuOp.cmd (ResourceBarrier (BackBufferTextures bb) RENDER_TARGET PRESENT) ∈ pre) := by
  have hc := checkFrom_opReady w h bb
  rw [hsplit] at hc
  have hP := checkFrom_split (opReady bb) pre post op creationState Bindings.reset [] hc
  simp only [trackedState_run_append]
  refine ⟨by fin_cases bb <;> rfl, ?_, ?_, ?_, ?_, ?_⟩
  · intro v d s hop
    subst hop
    simpa [opReady] using hP
  · intro n m hop
    subst hop
    simpa [opReady, and_assoc] using hP
  · intro dst x y src rect mode hop
    subst hop
    simpa [opReady, and_assoc] using hP
  · intro n m hop
    subst hop
    simpa [opReady, and_assoc] using hP
  · intro i hop
    subst hop
    simp only [opReady, Bool.and_eq_true, decide_eq_true_eq, List.append_nil] at hP
    refine ⟨hP.1.1, hP.1.2, ?_⟩
    have hm := mem_of_any_isBarrier _ _ _ _ hP.2
    simpa using hm

/-- Witness of C1 at 1280x720, third frame, back buffer 0: the Present, which
follows the whole command list. -/
theorem frame_ops_find_needed_states_witness :
    frameTimeline 1280 720 0 =
      (recordFrame 1280 720 0).map GpuOp.cmd ++ GpuOp.Present 0 :: [] ∧
    trackedState (runTimeline 1280 720 [0, 1] ++ (recordFrame 1280 720 0).map GpuOp.cmd)
      (BackBufferTextures 0) = PRESENT :=
  ⟨rfl,
    ((frame_ops_find_needed_states 1280 720 [0, 1] 0
        ((recordFrame 1280 720 0).map GpuOp.cmd) [] (GpuOp.Present 0) rfl).2.2.2.2.2
      0 rfl).2.1⟩

/-- C2: the barriers recorded in a frame are exactly the six listed, in this
order; each of the three resources (depth target, resolved texture, current
back buffer) gets exactly two, the second the inverse of the first; no barrier
has equal from and to states; and the depth target, cycled
RESOLVE_SOURCE, DEPTH_WRITE, RESOLVE_SOURCE, ends in the state it started in. -/
theorem frame_barriers_exact (w h : Nat) (bb : Fin 2) :
    barriersOf (recordFrame w h bb) =
      [⟨DepthBufferTexture, RESOLVE_SOURCE, DEPTH_WRITE⟩,
       ⟨DepthBufferTexture, DEPTH_WRITE, RESOLVE_SOURCE⟩,
       ⟨ResolvedDepthBufferTexture, PIXEL_SHADER_RESOURCE, RESOLVE_DEST⟩,
       ⟨ResolvedDepthBufferTexture, RESOLVE_DEST, PIXEL_SHADER_RESOURCE⟩,
       ⟨BackBufferTextures bb, PRESENT, RENDER_TARGET⟩,
       ⟨BackBufferTextures bb, RENDER_TARGET, PRESENT⟩] ∧
    barriersOn DepthBufferTexture (barriersOf (recordFrame w h bb)) =
      [⟨DepthBufferTexture, RESOLVE_SOURCE, DEPTH_WRITE⟩,
       ⟨DepthBufferTexture, DEPTH_WRITE, RESOLVE_SOURCE⟩] ∧
    barriersOn ResolvedDepthBufferTexture (barriersOf (recordFrame w h bb)) =
      [⟨ResolvedDepthBufferTexture, PIXEL_SHADER_RESOURCE, RESOLVE_DEST⟩,
       ⟨ResolvedDepthBufferTexture, RESOLVE_DEST, PIXEL_SHADER_RESOURCE⟩] ∧
    barriersOn (BackBufferTextures bb) (barriersOf (recordFrame w h bb)) =
      [⟨BackBufferTextures bb, PRESENT, RENDER_TARGET⟩,
       ⟨BackBufferTextures bb, RENDER_TARGET, PRESENT⟩] ∧
    (∀ r, (barriersOn r (barriersOf (recordFrame w h bb))).length =
      if r = DepthBufferTexture ∨ r = ResolvedDepthBufferTexture ∨ r = BackBufferTextures bb
      then 2 else 0) ∧
    (∀ b ∈ barriersOf (recordFrame w h bb), b.StateBefore ≠ b.StateAfter) ∧
    creationState DepthBufferTexture = RESOLVE_SOURCE ∧
    trackedState ((recordFrame w h bb).map GpuOp.cmd) DepthBufferTexture = RESOLVE_SOURCE := by
  refine ⟨rfl, ?_, ?_, ?_, ?_, ?_, rfl, ?_⟩
  · fin_cases bb <;> rfl
  · fin_cases bb <;> rfl
  · fin_cases bb <;> rfl
  · intro r
    cases r with
    | BackBufferTextures i => fin_cases bb <;> fin_cases i <;> rfl
    | _ => fin_cases bb <;> rfl
  · intro b hb
    simp only [recordFrame, barriersOf, List.mem_cons, List.mem_singleton,
      List.not_mem_nil, or_false] at hb
    rcases hb with hb | hb | hb | hb | hb | hb <;> subst hb <;> simp
  · fin_cases bb <;> rfl

/-- Witness of C2 at 1280x720, back buffer 1: the first barrier of the frame
is not a no-op. -/
theorem frame_barriers_exact_witness :
    (⟨DepthBufferTexture, RESOLVE_SOURCE, DEPTH_WRITE⟩ : Barrier).StateBefore ≠
      (⟨DepthBufferTexture, RESOLVE_SOURCE, DEPTH_WRITE⟩ : Barrier).StateAfter :=
  (frame_barriers_exact 1280 720 1).2.2.2.2.2.1 _ (by simp [recordFrame, barriersOf])

/-- C3: starting from the creation states (depth target RESOLVE_SOURCE,
resolved texture PIXEL_SHADER_RESOURCE, back buffers PRESENT), after any
number of frames, every barrier recorded in the next frame declares as
from-state the tracked state of its resource (the to-state of the last earlier
barrier on it, or its creation state); and at the end of the frame every
resource is again in its creation state. -/
theorem barrier_from_state_is_tracked (w h : Nat) (done : List (Fin 2)) (bb : Fin 2)
    (pre post : List GpuOp) (res : Resource) (a b : D3D12_RESOURCE_STATES)
    (hsplit : frameTimeline w h bb = pre ++ GpuOp.cmd (ResourceBarrier res a b) :: post) :
    creationState DepthBufferTexture = RESOLVE_SOURCE ∧
    creationState ResolvedDepthBufferTexture = PIXEL_SHADER_RESOURCE ∧
    creationState (BackBufferTextures 0) = PRESENT ∧
    creationState (BackBufferTextures 1) = PRESENT ∧
    a = trackedState (runTimeline w h done ++ pre) res ∧
    (∀ r, trackedState (runTimeline w h (done ++ [bb])) r = creationState r) := by
  have hc := checkFrom_barrierFromTracked w h bb
  rw [hsplit] at hc
  have hP := checkFrom_split barrierFromTracked pre post _ creationState Bindings.reset [] hc
  refine ⟨rfl, rfl, rfl, rfl, ?_, ?_⟩
  · rw [trackedState_run_append]
    simpa [barrierFromTracked] using hP
  · intro r
    rw [← trackOps_creation_eq_trackedState, trackOps_runTimeline]

/-- Witness of C3 at 1280x720: the back-buffer barrier PRESENT to
RENDER_TARGET of the frame after frames on back buffers 0 and 1. -/
theorem barrier_from_state_is_tracked_witness :
    frameTimeline 1280 720 0 =
      ((recordFrame 1280 720 0).take 17).map GpuOp.cmd ++
        GpuOp.cmd (ResourceBarrier (BackBufferTextures 0) PRESENT RENDER_TARGET) ::
          ((((recordFrame 1280 720 0).drop 18).map GpuOp.cmd) ++ [GpuOp.Present 0]) ∧
    PRESENT = trackedState (runTimeline 1280 720 [0, 1] ++
      ((recordFrame 1280 720 0).take 17).map GpuOp.cmd) (BackBufferTextures 0) :=
  ⟨rfl,
    (barrier_from_state_is_tracked 1280 720 [0, 1] 0
      (((recordFrame 1280 720 0).take 17).map GpuOp.cmd)
      ((((recordFrame 1280 720 0).drop 18).map GpuOp.cmd) ++ [GpuOp.Present 0])
      (BackBufferTextures 0) PRESENT RENDER_TARGET rfl).2.2.2.2.1⟩

/-! ## Lemmas on the reachable states of the frame loop -/

theorem itemAt_exec (k : Nat) :
    itemAt (3 * k) = QueueItem.ExecuteCommandLists k (k % 2) := by
  have h1 : 3 * k % 3 = 0 := by omega
  have h2 : 3 * k / 3 = k := by omega
  simp [itemAt, h1, h2]

theorem itemAt_present (k : Nat) : itemAt (3 * k + 1) = QueueItem.Present k := by
  have h1 : (3 * k + 1) % 3 = 1 := by omega
  have h2 : (3 * k + 1) / 3 = k := by omega
  simp [itemAt, h1, h2]

theorem itemAt_signal (k : Nat) : itemAt (3 * k + 2) = QueueItem.Signal (k % 2) 1 k := by
  have h1 : (3 * k + 2) % 3 = 2 := by omega
  have h2 : (3 * k + 2) / 3 = k := by omega
  simp [itemAt, h1, h2]

theorem queue_snoc (p m : Nat) (h : p ≤ m) :
    (List.range' p (m - p)).map itemAt ++ [itemAt m]
      = (List.range' p (m + 1 - p)).map itemAt := by
  have h1 : m + 1 - p = (m - p) + 1 := by omega
  have h2 : p + (m - p) = m := by omega
  rw [h1, List.range'_1_concat, List.map_append, h2]
  rfl

theorem queue_cons (p m : Nat) (h : p < m) :
    (List.range' p (m - p)).map itemAt
      = itemAt p :: (List.range' (p + 1) (m - (p + 1))).map itemAt := by
  have h1 : m - p = (m - (p + 1)) + 1 := by omega
  rw [h1, List.range'_succ, List.map_cons]

theorem inFlight_snoc (q : List QueueItem) (x : QueueItem) :
    inFlight (q ++ [x]) = inFlight q + inFlight [x] := by
  induction q with
  | nil => simp [inFlight]
  | cons y ys ih =>
    cases y with
    | ExecuteCommandLists f a =>
      show inFlight (ys ++ [x]) + 1 = inFlight ys + 1 + inFlight [x]
      omega
    | Present f => exact ih
    | Signal i v f => exact ih

theorem floor_of_fence_high (k p : Nat)
    (h : 1 ≤ (if fenceLow k p (k % 2) then 0 else 1)) : 3 * (k - 1) ≤ p := by
  unfold fenceLow at h
  split_ifs at h <;> omega

theorem floor_of_exit_fence_high (k p : Nat)
    (h : 1 ≤ (if fenceLow k p ((k + 1) % 2) then 0 else 1)) : 3 * k ≤ p := by
  unfold fenceLow at h
  split_ifs at h <;> omega

theorem fence_after_signalZero (k p t : Nat) (hlo : 3 * (k - 1) ≤ p) (hhi : p ≤ 3 * k) :
    (if t = k % 2 then 0 else if fenceLow k p t then 0 else 1)
      = if fenceLow (k + 1) p t then 0 else 1 := by
  unfold fenceLow
  split_ifs <;> omega

theorem lastOn_after_record (k t : Nat) :
    (if t = k % 2 then some k else lastOn k t) = lastOn (k + 1) t := by
  unfold lastOn
  by_cases ht : t = k % 2
  · have h1 : 1 ≤ k + 1 ∧ (k + 1 - 1) % 2 = t := by omega
    simp [ht]
  · have h1 : ¬ (1 ≤ k + 1 ∧ (k + 1 - 1) % 2 = t) := by omega
    have h2 : (2 ≤ k + 1 ∧ (k - 1) % 2 = t) ↔ (1 ≤ k ∧ (k - 1) % 2 = t) := by omega
    have h3 : ¬ (2 ≤ k ∧ (k - 2) % 2 = t) := by omega
    have h4 : k + 1 - 2 = k - 1 := by omega
    simp only [if_neg ht, if_neg h1, if_neg h3, h4, h2]

theorem fence_after_item (m p t : Nat) (hm : p % 3 ≠ 2) :
    (if fenceLow m p t then 0 else 1) = if fenceLow m (p + 1) t then 0 else 1 := by
  unfold fenceLow
  split_ifs <;> omega

theorem fence_after_signal (m p t : Nat) (hm : p % 3 = 2) (hfloor : 3 * (m - 2) ≤ p) :
    (if t = p / 3 % 2 then 1 else if fenceLow m p t then 0 else 1)
      = if fenceLow m (p + 1) t then 0 else 1 := by
  unfold fenceLow
  split_ifs <;> omega

theorem Inv_init : Inv Sys.init := by
  refine ⟨0, ?_, ?_, ?_, ?_, ?_, ?_, ?_, ?_, ?_, ?_, ?_⟩
  all_goals
    simp [Sys.init, Pc.floor, Pc.issued, Pc.started, Pc.recorded, Pc.submitted, Pc.exited,
      fenceLow, lastOn, inFlight]

theorem Inv_cpuStep (s : Sys) (b : Bool) (hs : Inv s) : Inv (cpuStep s b) := by
  obtain ⟨pc, idx, fences, queue, k, af, ls, tg, comp, rch⟩ := s
  obtain ⟨p, hlo, hhi, hq, hc, hr, hf, ha, hl, ht, hi, hfl⟩ := hs
  simp only at hlo hhi hq hc hr hf ha hl ht hi hfl
  cases pc
  case PollEvents =>
    cases b
    · exact ⟨p, hlo, hhi, hq, hc, hr, hf, ha, hl, ht, hi, hfl⟩
    · exact ⟨p, hlo, hhi, hq, hc, hr, hf, ha, hl, ht, hi, hfl⟩
  case CheckFence =>
    simp only [cpuStep]
    split
    · exact ⟨p, hlo, hhi, hq, hc, hr, hf, ha, hl, ht, hi, hfl⟩
    · rename_i hne
      simp only [hf, hi, Pc.started, Pc.exited, Nat.add_zero, ne_eq, not_not] at hne
      exact ⟨p, floor_of_fence_high k p (le_of_eq hne.symm), hhi, hq, hc, hr, hf, ha, hl, ht,
        hi, hfl⟩
  case WaitFence =>
    simp only [cpuStep]
    split
    · rename_i hge
      simp only [hf, hi, Pc.started, Pc.exited, Nat.add_zero] at hge
      exact ⟨p, floor_of_fence_high k p hge, hhi, hq, hc, hr, hf, ha, hl, ht, hi, hfl⟩
    · exact ⟨p, hlo, hhi, hq, hc, hr, hf, ha, hl, ht, hi, hfl⟩
  case SignalZero =>
    simp only [cpuStep, Inv]
    refine ⟨p, hlo, hhi, hq, hc, hr, ?_, ha, hl, ht, hi, hfl⟩
    intro t
    simp only [setAt, hf t, hi, Pc.started, Pc.exited, Pc.issued, Pc.floor, Nat.add_zero]
      at hlo hhi ⊢
    exact fence_after_signalZero k p t hlo hhi
  case ResetAllocator => exact ⟨p, hlo, hhi, hq, hc, hr, hf, ha, hl, ht, hi, hfl⟩
  case Record =>
    simp only [cpuStep, Inv]
    refine ⟨p, hlo, hhi, hq, hc, hr, hf, ?_, hl, ht, hi, hfl⟩
    intro t
    simp only [setAt, ha t, hi, Pc.recorded, Pc.exited, Nat.add_zero]
    exact lastOn_after_record k t
  case Execute =>
    simp only [cpuStep, Inv]
    simp only [Pc.floor, Pc.issued, Pc.started, Pc.recorded, Pc.submitted, Pc.exited,
      Nat.add_zero] at hlo hhi hq hc hr hf ha hl ht hi hfl ⊢
    refine ⟨p, hlo, Nat.le_succ_of_le hhi, ?_, hc, hr, hf, ha, ?_, ht, hi, ?_⟩
    · rw [hq, hi, ← itemAt_exec, queue_snoc p (3 * k) hhi]
    · simp [hi]
    · rw [inFlight_snoc]
      simp only [inFlight]
      omega
  case Present =>
    simp only [cpuStep, Inv]
    simp only [Pc.floor, Pc.issued, Pc.started, Pc.recorded, Pc.submitted, Pc.exited,
      Nat.add_zero] at hlo hhi hq hc hr hf ha hl ht hi hfl ⊢
    refine ⟨p, hlo, Nat.le_succ_of_le hhi, ?_, hc, hr, hf, ha, hl, ht, hi, ?_⟩
    · rw [hq, ← itemAt_present, queue_snoc p (3 * k + 1) hhi]
    · rw [inFlight_snoc]
      simp only [inFlight]
      omega
  case QueueSignal =>
    simp only [cpuStep, Inv]
    simp only [Pc.floor, Pc.issued, Pc.started, Pc.recorded, Pc.submitted, Pc.exited,
      Nat.add_zero] at hlo hhi hq hc hr hf ha hl ht hi hfl ⊢
    refine ⟨p, hlo, Nat.le_succ_of_le hhi, ?_, hc, hr, hf, ha, hl, ?_, hi, ?_⟩
    · rw [hq, hi, ← itemAt_signal, queue_snoc p (3 * k + 2) hhi]
    · intro t
      simp only [setAt, ht t]
      split_ifs <;> rfl
    · rw [inFlight_snoc]
      simp only [inFlight]
      omega
  case Advance =>
    simp only [cpuStep, Inv]
    simp only [Pc.floor, Pc.issued, Pc.started, Pc.recorded, Pc.submitted, Pc.exited,
      Nat.add_zero] at hlo hhi hq hc hr hf ha hl ht hi hfl ⊢
    have h3 : 3 * (k + 1) = 3 * k + 3 := by omega
    have h4 : 3 * (k + 1 - 2) = 3 * (k - 1) := by omega
    have h5 : (k % 2 + 1) % 2 = (k + 1) % 2 := by omega
    refine ⟨p, h4 ▸ hlo, h3 ▸ hhi, ?_, hc, hr, hf, ha, ?_, ht, ?_, hfl⟩
    · rw [hq, h3]
    · simpa using hl
    · rw [hi, h5]
  case ExitAdvance =>
    simp only [cpuStep, Inv]
    simp only [Pc.floor, Pc.issued, Pc.started, Pc.recorded, Pc.submitted, Pc.exited,
      Nat.add_zero] at hlo hhi hq hc hr hf ha hl ht hi hfl ⊢
    have h5 : (k % 2 + 1) % 2 = (k + 1) % 2 := by omega
    refine ⟨p, hlo, hhi, hq, hc, hr, hf, ha, hl, ht, ?_, hfl⟩
    rw [hi, h5]
  case ExitCheck =>
    simp only [cpuStep]
    split
    · exact ⟨p, hlo, hhi, hq, hc, hr, hf, ha, hl, ht, hi, hfl⟩
    · rename_i hne
      simp only [hf, hi, Pc.started, Pc.exited, Nat.add_zero, ne_eq, not_not] at hne
      exact ⟨p, floor_of_exit_fence_high k p (le_of_eq hne.symm), hhi, hq, hc, hr, hf, ha, hl,
        ht, hi, hfl⟩
  case ExitWait =>
    simp only [cpuStep]
    split
    · rename_i hge
      simp only [hf, hi, Pc.started, Pc.exited, Nat.add_zero] at hge
      exact ⟨p, floor_of_exit_fence_high k p hge, hhi, hq, hc, hr, hf, ha, hl, ht, hi, hfl⟩
    · exact ⟨p, hlo, hhi, hq, hc, hr, hf, ha, hl, ht, hi, hfl⟩
  case Teardown => exact ⟨p, hlo, hhi, hq, hc, hr, hf, ha, hl, ht, hi, hfl⟩

theorem floor_facts (pc : Pc) (k p : Nat) (hlo : pc.floor k ≤ p)
    (hlt : p < 3 * k + pc.issued) :
    3 * (k + pc.started - 2) ≤ p ∧ pc.floor k ≤ p + 1 := by
  cases pc <;> simp only [Pc.floor, Pc.started, Pc.issued] at hlo hlt ⊢ <;> omega

theorem Inv_gpuStep (s : Sys) (hs : Inv s) : Inv (gpuStep s) := by
  obtain ⟨pc, idx, fences, queue, k, af, ls, tg, comp, rch⟩ := s
  obtain ⟨p, hlo, hhi, hq, hc, hr, hf, ha, hl, ht, hi, hfl⟩ := hs
  simp only at hlo hhi hq hc hr hf ha hl ht hi hfl
  by_cases hp : p = 3 * k + pc.issued
  · have hnil : queue = [] := by rw [hq, hp]; simp
    subst hnil
    exact ⟨p, hlo, hhi, hq, hc, hr, hf, ha, hl, ht, hi, hfl⟩
  · have hlt : p < 3 * k + pc.issued := by omega
    rw [queue_cons p _ hlt] at hq
    have hfloor := floor_facts pc k p hlo hlt
    have hmod : p % 3 = 0 ∨ p % 3 = 1 ∨ p % 3 = 2 := by omega
    rcases hmod with h0 | h1 | h2
    · have hitem : itemAt p = QueueItem.ExecuteCommandLists (p / 3) (p / 3 % 2) := by
        simp [itemAt, h0]
      rw [hitem] at hq
      subst hq
      simp only [gpuStep, Inv]
      simp only [inFlight] at hfl
      have e1 : (p + 1 + 2) / 3 = (p + 2) / 3 + 1 := by omega
      have e2 : p / 3 = (p + 2) / 3 := by omega
      have e3 : (p + 1) / 3 = p / 3 := by omega
      refine ⟨p + 1, hfloor.2, hlt, rfl, ?_, ?_, ?_, ha, hl, ht, hi, ?_⟩
      · rw [hc, e1, e2, List.range_succ]
      · rw [hr, e3]
      · intro t
        rw [hf t]
        exact fence_after_item _ p t (by omega)
      · rw [e1]; omega
    · have hitem : itemAt p = QueueItem.Present (p / 3) := by
        simp [itemAt, h1]
      rw [hitem] at hq
      subst hq
      simp only [gpuStep, Inv]
      simp only [inFlight] at hfl
      have e1 : (p + 1 + 2) / 3 = (p + 2) / 3 := by omega
      have e3 : (p + 1) / 3 = p / 3 := by omega
      refine ⟨p + 1, hfloor.2, hlt, rfl, ?_, ?_, ?_, ha, hl, ht, hi, ?_⟩
      · rw [hc, e1]
      · rw [hr, e3]
      · intro t
        rw [hf t]
        exact fence_after_item _ p t (by omega)
      · rw [e1]; exact hfl
    · have hitem : itemAt p = QueueItem.Signal (p / 3 % 2) 1 (p / 3) := by
        simp [itemAt, h2]
      rw [hitem] at hq
      subst hq
      simp only [gpuStep, Inv]
      simp only [inFlight] at hfl
      have e1 : (p + 1 + 2) / 3 = (p + 2) / 3 := by omega
      have e3 : (p + 1) / 3 = p / 3 + 1 := by omega
      refine ⟨p + 1, hfloor.2, hlt, rfl, ?_, ?_, ?_, ha, hl, ht, hi, ?_⟩
      · rw [hc, e1]
      · rw [hr, e3, List.range_succ]
      · intro t
        simp only [setAt, hf t]
        exact fence_after_signal _ p t h2 hfloor.1
      · rw [e1]; exact hfl

theorem Inv_step (s : Sys) (e : Event) (hs : Inv s) : Inv (step s e) := by
  cases e with
  | cpu b => exact Inv_cpuStep s b hs
  | gpu => exact Inv_gpuStep s hs

theorem Inv_foldl (sched : List Event) : ∀ s, Inv s → Inv (sched.foldl step s) := by
  induction sched with
  | nil => intro s hs; exact hs
  | cons e es ih => intro s hs; exact ih _ (Inv_step s e hs)

theorem Inv_run (sched : List Event) : Inv (run sched) :=
  Inv_foldl sched _ Inv_init

theorem signal_value_of_mem (l : List Nat) (i v f : Nat)
    (h : QueueItem.Signal i v f ∈ l.map itemAt) : v = 1 ∧ i = f % 2 := by
  rw [List.mem_map] at h
  obtain ⟨n, _, hn⟩ := h
  unfold itemAt at hn
  split_ifs at hn
  injection hn with h1 h2 h3
  subst h1 h2 h3
  exact ⟨rfl, rfl⟩

theorem noEarlyWait_step (s : Sys) (e : Event) (hs : Inv s)
    (hw : s.pc = Pc.WaitFence → 2 ≤ s.frame) :
    (step s e).pc = Pc.WaitFence → 2 ≤ (step s e).frame := by
  obtain ⟨pc, idx, fences, queue, k, af, ls, tg, comp, rch⟩ := s
  obtain ⟨p, hlo, hhi, hq, hc, hr, hf, ha, hl, ht, hi, hfl⟩ := hs
  simp only at hlo hhi hq hc hr hf ha hl ht hi hfl hw
  cases e with
  | gpu =>
    simp only [step, gpuStep]
    split <;> exact hw
  | cpu b =>
    cases pc
    case CheckFence =>
      simp only [step, cpuStep]
      split
      · rename_i hne
        intro _
        show 2 ≤ k
        simp only [hf, hi, Pc.started, Pc.exited, Nat.add_zero, fenceLow] at hne
        split_ifs at hne <;> omega
      · intro h; cases h
    case WaitFence =>
      simp only [step, cpuStep]
      split
      · intro h; cases h
      · exact hw
    case PollEvents =>
      cases b <;> (intro h; cases h)
    case ExitCheck =>
      simp only [step, cpuStep]
      split <;> (intro h; cases h)
    case ExitWait =>
      simp only [step, cpuStep]
      split <;> (intro h; cases h)
    all_goals (intro h; cases h)

theorem noEarlyWait_foldl (sched : List Event) :
    ∀ s, Inv s → (s.pc = Pc.WaitFence → 2 ≤ s.frame) →
      (sched.foldl step s).pc = Pc.WaitFence → 2 ≤ (sched.foldl step s).frame := by
  induction sched with
  | nil => intro s _ hw; exact hw
  | cons e es ih =>
    intro s hs hw
    exact ih _ (Inv_step s e hs) (noEarlyWait_step s e hs hw)

theorem fences_le_one (s : Sys) (hs : Inv s) (t : Nat) : s.FrameFences t ≤ 1 := by
  obtain ⟨p, _, _, _, _, _, hf, _⟩ := hs
  rw [hf t]
  split_ifs <;> omega

theorem cpuStep_fences (s : Sys) (b : Bool) (t : Nat)
    (h : (cpuStep s b).FrameFences t ≠ s.FrameFences t) :
    s.pc = Pc.SignalZero ∧ t = s.CurrentCommandAllocatorIndex ∧
      (cpuStep s b).FrameFences t = 0 := by
  obtain ⟨pc, idx, fences, queue, k, af, ls, tg, comp, rch⟩ := s
  cases pc
  case SignalZero =>
    by_cases ht : t = idx
    · subst ht
      exact ⟨rfl, rfl, by simp [cpuStep, setAt]⟩
    · exact absurd (by simp [cpuStep, setAt, ht]) h
  case PollEvents => cases b <;> exact absurd rfl h
  case CheckFence => simp only [cpuStep] at h; split at h <;> exact absurd rfl h
  case WaitFence => simp only [cpuStep] at h; split at h <;> exact absurd rfl h
  case ExitCheck => simp only [cpuStep] at h; split at h <;> exact absurd rfl h
  case ExitWait => simp only [cpuStep] at h; split at h <;> exact absurd rfl h
  all_goals exact absurd rfl h

theorem gpuStep_fences (s : Sys) (hs : Inv s) (t : Nat) :
    s.FrameFences t ≤ (gpuStep s).FrameFences t := by
  have hle := fences_le_one s hs t
  obtain ⟨p, _, _, hq, _⟩ := hs
  obtain ⟨pc, idx, fences, queue, k, af, ls, tg, comp, rch⟩ := s
  simp only at hq hle
  cases queue with
  | nil => exact le_refl _
  | cons x rest =>
    cases x with
    | ExecuteCommandLists f a => exact le_refl _
    | Present f => exact le_refl _
    | Signal i v f =>
      have hv := (signal_value_of_mem _ i v f (hq ▸ List.mem_cons_self _ _)).1
      subst hv
      simp only [gpuStep, setAt]
      split_ifs
      · exact hle
      · exact le_refl _

/-! ## Claims on the frame synchronisation -/

/-- C4: in every reachable state of the frame loop (any interleaving of CPU
steps and in-order GPU completions), when the CPU is about to reset the command
allocator of the current slot, the frame previously recorded from that slot has
completed on the GPU; when frame N+2 has passed the fence wait (so before it
begins recording) the GPU has reached the fence signal of frame N and completed
frame N; and at most 2 submitted command lists are incomplete. -/
theorem allocator_reset_waits_for_gpu (sched : List Event) :
    ((run sched).pc = Pc.ResetAllocator →
      ∀ f, (run sched).allocatorFrame (run sched).CurrentCommandAllocatorIndex = some f →
        f ∈ (run sched).completed) ∧
    (∀ N, N + 2 < (run sched).frame ∨
        (N + 2 = (run sched).frame ∧
          ((run sched).pc = Pc.SignalZero ∨ (run sched).pc.started = 1)) →
      N ∈ (run sched).reached ∧ N ∈ (run sched).completed) ∧
    inFlight (run sched).queue ≤ 2 := by
  obtain ⟨p, hlo, hhi, hq, hc, hr, hf, ha, hl, ht, hi, hfl⟩ := Inv_run sched
  generalize run sched = s at *
  obtain ⟨pc, idx, fences, queue, k, af, ls, tg, comp, rch⟩ := s
  simp only at hlo hhi hq hc hr hf ha hl ht hi hfl ⊢
  refine ⟨?_, ?_, ?_⟩
  · intro hpc f hf'
    subst hpc
    simp only [Pc.floor, Pc.recorded, Pc.exited, Nat.add_zero] at hlo ha hi
    rw [ha, hi] at hf'
    rw [hc, List.mem_range]
    unfold lastOn at hf'
    split_ifs at hf' <;> simp at hf' <;> omega
  · intro N hN
    rw [hc, hr, List.mem_range, List.mem_range]
    cases pc <;> simp only [Pc.floor, Pc.started, reduceCtorEq, false_or, or_false,
      and_false, and_true] at hlo hN <;> omega
  · cases pc <;> simp only [Pc.floor, Pc.submitted] at hlo hfl <;> omega

/-- Witness of C4: two frames are submitted, the CPU waits on fence 0, the GPU
completes frame 0 and reaches its signal, and the CPU arrives at the reset of
allocator 0 for frame 2. -/
theorem allocator_reset_waits_for_gpu_witness :
    (run (List.replicate 20 (Event.cpu false) ++ List.replicate 3 Event.gpu ++
        List.replicate 2 (Event.cpu false))).pc = Pc.ResetAllocator ∧
    (run (List.replicate 20 (Event.cpu false) ++ List.replicate 3 Event.gpu ++
        List.replicate 2 (Event.cpu false))).allocatorFrame 0 = some 0 ∧
    0 ∈ (run (List.replicate 20 (Event.cpu false) ++ List.replicate 3 Event.gpu ++
        List.replicate 2 (Event.cpu false))).completed :=
  ⟨by decide, by decide,
    (allocator_reset_waits_for_gpu (List.replicate 20 (Event.cpu false) ++
      List.replicate 3 Event.gpu ++ List.replicate 2 (Event.cpu false))).1
      (by decide) 0 (by decide)⟩

/-- C5: once the loop has been left, the fence index used by the shutdown
check and wait is the allocator index of the last submitted frame, not the
index the next iteration would have used; and whenever teardown is reached, the
fence of that index holds the value signalled for that frame, the GPU has
reached that signal, and nothing is left in the queue. -/
theorem shutdown_waits_on_last_used_slot (sched : List Event) (f a : Nat)
    (hexit : (run sched).pc = Pc.ExitCheck ∨ (run sched).pc = Pc.ExitWait ∨
      (run sched).pc = Pc.Teardown)
    (hlast : (run sched).lastSubmit = some (f, a)) :
    (run sched).CurrentCommandAllocatorIndex = a ∧
    (run sched).CurrentCommandAllocatorIndex ≠ (a + 1) % 2 ∧
    f + 1 = (run sched).frame ∧
    ((run sched).pc = Pc.Teardown →
      (run sched).FrameFences a = (run sched).target a ∧
      (run sched).target a = 1 ∧
      f ∈ (run sched).reached ∧
      f ∈ (run sched).completed ∧
      (run sched).queue = []) := by
  obtain ⟨p, hlo, hhi, hq, hc, hr, hf, ha, hl, ht, hi, hfl⟩ := Inv_run sched
  generalize run sched = s at *
  obtain ⟨pc, idx, fences, queue, k, af, ls, tg, comp, rch⟩ := s
  simp only at hlo hhi hq hc hr hf ha hl ht hi hfl hexit hlast ⊢
  have hk : 1 ≤ k ∧ f = k - 1 ∧ a = (k - 1) % 2 := by
    rw [hl] at hlast
    rcases hexit with h | h | h <;> subst h <;>
      simp only [Pc.submitted, Nat.add_zero] at hlast <;>
      split_ifs at hlast <;> simp at hlast <;> omega
  have hidx : idx = (k + 1) % 2 := by
    rcases hexit with h | h | h <;> subst h <;> simpa [Pc.exited] using hi
  refine ⟨by omega, by omega, by omega, ?_⟩
  intro hpc
  subst hpc
  simp only [Pc.floor, Pc.issued, Pc.started, Nat.add_zero] at hlo hhi hq hf
  have hp : p = 3 * k := by omega
  subst hp
  refine ⟨?_, ht a, ?_, ?_, ?_⟩
  · rw [hf a, ht a]
    unfold fenceLow
    split_ifs <;> omega
  · rw [hr, List.mem_range]; omega
  · rw [hc, List.mem_range]; omega
  · rw [hq]; simp

/-- Witness of C5: one frame is submitted, the window is closed, the shutdown
code waits, the GPU drains the queue and teardown is reached. -/
theorem shutdown_waits_on_last_used_slot_witness :
    (run (List.replicate 9 (Event.cpu false) ++ List.replicate 3 (Event.cpu true) ++
        List.replicate 3 Event.gpu ++ [Event.cpu false])).pc = Pc.Teardown ∧
    (run (List.replicate 9 (Event.cpu false) ++ List.replicate 3 (Event.cpu true) ++
        List.replicate 3 Event.gpu ++ [Event.cpu false])).CurrentCommandAllocatorIndex = 0 :=
  ⟨by decide,
    (shutdown_waits_on_last_used_slot (List.replicate 9 (Event.cpu false) ++
      List.replicate 3 (Event.cpu true) ++ List.replicate 3 Event.gpu ++ [Event.cpu false])
      0 0 (by decide) (by decide)).1⟩

/-- C6: both fences are created with value 1, and in every reachable state in
which the first iteration (slot 0) or the second iteration (slot 1) is at its
fence check, the fence of its slot holds 1, so the CPU goes on to `Signal(0)`
without taking the wait branch; the wait is never entered in these two
iterations, whatever the GPU has completed. -/
theorem first_two_iterations_do_not_wait (sched : List Event) (b : Bool)
    (hframe : (run sched).frame < 2) :
    Sys.init.FrameFences 0 = 1 ∧ Sys.init.FrameFences 1 = 1 ∧
    (run sched).pc ≠ Pc.WaitFence ∧
    ((run sched).pc = Pc.CheckFence →
      (run sched).CurrentCommandAllocatorIndex = (run sched).frame ∧
      (run sched).FrameFences (run sched).CurrentCommandAllocatorIndex = 1 ∧
      (step (run sched) (Event.cpu b)).pc = Pc.SignalZero) := by
  have hw := noEarlyWait_foldl sched Sys.init Inv_init (by intro h; cases h)
  obtain ⟨p, hlo, hhi, hq, hc, hr, hf, ha, hl, ht, hi, hfl⟩ := Inv_run sched
  change (run sched).pc = Pc.WaitFence → 2 ≤ (run sched).frame at hw
  generalize run sched = s at *
  obtain ⟨pc, idx, fences, queue, k, af, ls, tg, comp, rch⟩ := s
  simp only at hlo hhi hq hc hr hf ha hl ht hi hfl hframe hw ⊢
  refine ⟨rfl, rfl, fun h => by have := hw h; omega, ?_⟩
  intro hpc
  subst hpc
  simp only [Pc.exited, Pc.started, Nat.add_zero] at hi hf
  have hfence : fences idx = 1 := by
    rw [hf idx, hi]
    unfold fenceLow
    split_ifs <;> omega
  refine ⟨by omega, hfence, ?_⟩
  simp [step, cpuStep, hfence]

/-- Witness of C6: the second iteration reaches its fence check while the GPU
has completed nothing. -/
theorem first_two_iterations_do_not_wait_witness :
    (run (List.replicate 10 (Event.cpu false))).frame < 2 ∧
    (run (List.replicate 10 (Event.cpu false))).pc = Pc.CheckFence ∧
    (run (List.replicate 10 (Event.cpu false))).FrameFences
      (run (List.replicate 10 (Event.cpu false))).CurrentCommandAllocatorIndex = 1 :=
  ⟨by decide, by decide,
    ((first_two_iterations_do_not_wait (List.replicate 10 (Event.cpu false)) false
      (by decide)).2.2.2 (by decide)).2.1⟩

/-- C7 as stated fails: starting with both targets at 1, after the first
iteration the signal queued for slot 0 has the value 1; it is not greater than
the previous target and it is not 2. The second use of slot 0, by frame 2,
again queues the value 1 on fence 0: the target of a use is not strictly
greater than that of the slot's previous use. -/
theorem first_iteration_target_is_not_two :
    (run (List.replicate 9 (Event.cpu false))).frame = 1 ∧
    Sys.init.target 0 = 1 ∧
    (run (List.replicate 9 (Event.cpu false))).queue =
      [QueueItem.ExecuteCommandLists 0 0, QueueItem.Present 0, QueueItem.Signal 0 1 0] ∧
    (run (List.replicate 9 (Event.cpu false))).target 0 = 1 ∧
    ¬ (Sys.init.target 0 < (run (List.replicate 9 (Event.cpu false))).target 0) ∧
    (run (List.replicate 9 (Event.cpu false))).target 0 ≠ 2 ∧
    (run (List.replicate 20 (Event.cpu false) ++ List.replicate 3 Event.gpu ++
        List.replicate 7 (Event.cpu false))).queue =
      [QueueItem.ExecuteCommandLists 1 1, QueueItem.Present 1, QueueItem.Signal 1 1 1,
       QueueItem.ExecuteCommandLists 2 0, QueueItem.Present 2, QueueItem.Signal 0 1 2] := by
  decide

/-- C7 amended: each use of a slot signals that slot's own fence to the target
1, the target of the slot's previous use, after the CPU has set the fence back
to 0. In every reachable state: at `Signal(0)` the fence of the current slot
holds 1 and the step takes it to 0; at the queue signal the current slot is the
frame number mod 2, its fence holds 0, its previous target is 1, the step
queues a signal of value 1 on that slot's fence for this frame, the slot's
target is 1 again and the other slot's target is untouched; every signal in
the queue is on the fence of its frame's slot with value 1, and when the GPU
reaches it that fence becomes 1. After the first iteration the only signal
queued is the one on fence 0 with value 1, fence 0 holds 0, fence 1 still
holds 1, and both targets are 1. -/
theorem every_use_signals_target_one (sched : List Event) (b : Bool) :
    ((run sched).pc = Pc.SignalZero →
      (run sched).FrameFences (run sched).CurrentCommandAllocatorIndex = 1 ∧
      (step (run sched) (Event.cpu b)).FrameFences
        (run sched).CurrentCommandAllocatorIndex = 0) ∧
    ((run sched).pc = Pc.QueueSignal →
      (run sched).CurrentCommandAllocatorIndex = (run sched).frame % 2 ∧
      (run sched).FrameFences (run sched).CurrentCommandAllocatorIndex = 0 ∧
      (run sched).target (run sched).CurrentCommandAllocatorIndex = 1 ∧
      (step (run sched) (Event.cpu b)).queue =
        (run sched).queue ++
          [QueueItem.Signal (run sched).CurrentCommandAllocatorIndex 1 (run sched).frame] ∧
      (step (run sched) (Event.cpu b)).target (run sched).CurrentCommandAllocatorIndex = 1 ∧
      (step (run sched) (Event.cpu b)).target
          (((run sched).CurrentCommandAllocatorIndex + 1) % 2) =
        (run sched).target (((run sched).CurrentCommandAllocatorIndex + 1) % 2)) ∧
    (∀ i v f, QueueItem.Signal i v f ∈ (run sched).queue → v = 1 ∧ i = f % 2) ∧
    (∀ i v f rest, (run sched).queue = QueueItem.Signal i v f :: rest →
      (step (run sched) Event.gpu).FrameFences i = 1) ∧
    (run (List.replicate 9 (Event.cpu false))).queue =
      [QueueItem.ExecuteCommandLists 0 0, QueueItem.Present 0, QueueItem.Signal 0 1 0] ∧
    (run (List.replicate 9 (Event.cpu false))).FrameFences 0 = 0 ∧
    (run (List.replicate 9 (Event.cpu false))).FrameFences 1 = 1 ∧
    (run (List.replicate 9 (Event.cpu false))).target 0 = 1 ∧
    (run (List.replicate 9 (Event.cpu false))).target 1 = 1 := by
  obtain ⟨p, hlo, hhi, hq, hc, hr, hf, ha, hl, ht, hi, hfl⟩ := Inv_run sched
  have hmem : ∀ i v f, QueueItem.Signal i v f ∈ (run sched).queue → v = 1 ∧ i = f % 2 := by
    intro i v f hm
    rw [hq] at hm
    exact signal_value_of_mem _ i v f hm
  refine ⟨?_, ?_, hmem, ?_, by decide, by decide, by decide, by decide, by decide⟩
  · intro hpc
    have h1 : (run sched).FrameFences (run sched).CurrentCommandAllocatorIndex = 1 := by
      rw [hf, hi]
      simp only [hpc, Pc.floor, Pc.started, Pc.exited, Nat.add_zero] at hlo ⊢
      unfold fenceLow
      split_ifs <;> omega
    refine ⟨h1, ?_⟩
    simp [step, cpuStep, hpc, setAt]
  · intro hpc
    have hidx : (run sched).CurrentCommandAllocatorIndex = (run sched).frame % 2 := by
      rw [hi]
      simp only [hpc, Pc.exited, Nat.add_zero]
    have h0 : (run sched).FrameFences (run sched).CurrentCommandAllocatorIndex = 0 := by
      rw [hf, hi]
      simp only [hpc, Pc.issued, Pc.started, Pc.exited, Nat.add_zero] at hhi ⊢
      unfold fenceLow
      split_ifs <;> omega
    have hne : ((run sched).CurrentCommandAllocatorIndex + 1) % 2 ≠
        (run sched).CurrentCommandAllocatorIndex := by omega
    refine ⟨hidx, h0, ht _, ?_, ?_, ?_⟩
    · simp [step, cpuStep, hpc]
    · simp [step, cpuStep, hpc, setAt]
    · simp [step, cpuStep, hpc, setAt, hne]
  · intro i v f rest hqueue
    have hv : v = 1 := (hmem i v f (hqueue ▸ List.mem_cons_self _ _)).1
    subst hv
    simp [step, gpuStep, hqueue, setAt]

/-- Witness of C7 amended: the second iteration at its queue signal; it is on
slot 1 and queues the value 1 on fence 1. -/
theorem every_use_signals_target_one_witness :
    (run (List.replicate 16 (Event.cpu false))).pc = Pc.QueueSignal ∧
    (run (List.replicate 16 (Event.cpu false))).CurrentCommandAllocatorIndex = 1 ∧
    (step (run (List.replicate 16 (Event.cpu false))) (Event.cpu false)).queue =
      (run (List.replicate 16 (Event.cpu false))).queue ++
        [QueueItem.Signal (run (List.replicate 16 (Event.cpu false))).CurrentCommandAllocatorIndex
          1 (run (List.replicate 16 (Event.cpu false))).frame] :=
  ⟨by decide, by decide,
    ((every_use_signals_target_one (List.replicate 16 (Event.cpu false)) false).2.1
      (by decide)).2.2.2.1⟩

/-- C8 as stated fails: in the first iteration the CPU's `Signal(0)` takes
fence 0 from 1 down to 0. -/
theorem cpu_signal_lowers_fence :
    (run [Event.cpu false, Event.cpu false]).pc = Pc.SignalZero ∧
    (run [Event.cpu false, Event.cpu false]).FrameFences 0 = 1 ∧
    (step (run [Event.cpu false, Event.cpu false]) (Event.cpu false)).FrameFences 0 = 0 ∧
    ¬ ((run [Event.cpu false, Event.cpu false]).FrameFences 0 ≤
      (step (run [Event.cpu false, Event.cpu false]) (Event.cpu false)).FrameFences 0) := by
  decide

/-- C8 amended: every fence holds 0 or 1 throughout; a step lowers the value of
a fence only when it is the CPU's `Signal(0)` on the current slot's fence at
the start of an iteration, taking it from 1 to 0; a GPU step never lowers a
fence. -/
theorem fence_lowered_only_by_signal_zero (sched : List Event) (e : Event) (t : Nat) :
    (run sched).FrameFences t ≤ 1 ∧
    ((step (run sched) e).FrameFences t < (run sched).FrameFences t →
      (∃ b, e = Event.cpu b) ∧
      (run sched).pc = Pc.SignalZero ∧
      t = (run sched).CurrentCommandAllocatorIndex ∧
      (run sched).FrameFences t = 1 ∧
      (step (run sched) e).FrameFences t = 0) ∧
    (run sched).FrameFences t ≤ (step (run sched) Event.gpu).FrameFences t := by
  have hs := Inv_run sched
  have hle := fences_le_one _ hs t
  refine ⟨hle, ?_, gpuStep_fences _ hs t⟩
  intro hlt
  cases e with
  | gpu => exact absurd (gpuStep_fences _ hs t) (not_le.mpr hlt)
  | cpu b =>
    have h := cpuStep_fences (run sched) b t (ne_of_lt hlt)
    refine ⟨⟨b, rfl⟩, h.1, h.2.1, ?_, h.2.2⟩
    have h0 : (step (run sched) (Event.cpu b)).FrameFences t = 0 := h.2.2
    omega

/-- Witness of C8 amended: the lowering step of the first iteration. -/
theorem fence_lowered_only_by_signal_zero_witness :
    (step (run [Event.cpu false, Event.cpu false]) (Event.cpu false)).FrameFences 0 <
      (run [Event.cpu false, Event.cpu false]).FrameFences 0 ∧
    (run [Event.cpu false, Event.cpu false]).pc = Pc.SignalZero :=
  ⟨by decide,
    ((fence_lowered_only_by_signal_zero [Event.cpu false, Event.cpu false]
      (Event.cpu false) 0).2.1 (by decide)).2.1⟩

/-! ## Lemmas on the maximum reduction -/

theorem foldl_max_spec (rest : List ℚ) :
    ∀ s : ℚ, (∀ a ∈ s :: rest, a ≤ rest.foldl max s) ∧ rest.foldl max s ∈ s :: rest := by
  induction rest with
  | nil => intro s; simp
  | cons r rs ih =>
    intro s
    obtain ⟨h1, h2⟩ := ih (max s r)
    simp only [List.foldl_cons]
    constructor
    · intro a ha
      simp only [List.mem_cons] at ha
      rcases ha with ha | ha | ha
      · subst ha
        exact le_trans (le_max_left _ _) (h1 _ (List.mem_cons_self _ _))
      · subst ha
        exact le_trans (le_max_right _ _) (h1 _ (List.mem_cons_self _ _))
      · exact h1 a (List.mem_cons_of_mem _ ha)
    · simp only [List.mem_cons] at h2 ⊢
      rcases h2 with h2 | h2
      · rcases max_choice s r with h | h
        · left; rw [h2, h]
        · right; left; rw [h2, h]
      · right; right; exact h2

theorem resolveSamples_max_ofFn (f : Fin 8 → ℚ) :
    (∀ i, f i ≤ resolveSamples D3D12_RESOLVE_MODE.MAX (List.ofFn f)) ∧
    ∃ i, resolveSamples D3D12_RESOLVE_MODE.MAX (List.ofFn f) = f i := by
  rw [List.ofFn_succ]
  simp only [resolveSamples]
  obtain ⟨h1, h2⟩ := foldl_max_spec (List.ofFn fun i => f i.succ) (f 0)
  rw [← List.ofFn_succ] at h1 h2
  constructor
  · intro i
    exact h1 _ ((List.mem_ofFn f (f i)).mpr ⟨i, rfl⟩)
  · obtain ⟨i, hi⟩ := (List.mem_ofFn f _).mp h2
    exact ⟨i, hi.symm⟩

/-! ## Claims on the shader and the resolve -/

/-- C9: for every resolved depth value the visualisation pixel shader outputs
alpha 1; colour (1,0,0) when the depth is 0, (0,1,0) when it is 1, (0,0,1) when
it lies strictly between; so for every depth in [0,1] exactly one colour
channel is 1 and the other two are 0. Depth 0 gives (1,0,0,1), depth 1 gives
(0,1,0,1), depth 0.5 gives (0,0,1,1). -/
theorem pixel_shader_colour (tex : Nat → Nat → ℚ) (px py : Nat) :
    (PS tex px py).w = 1 ∧
    (tex px py = 0 → PS tex px py = ⟨1, 0, 0, 1⟩) ∧
    (tex px py = 1 → PS tex px py = ⟨0, 1, 0, 1⟩) ∧
    (0 < tex px py → tex px py < 1 → PS tex px py = ⟨0, 0, 1, 1⟩) ∧
    (0 ≤ tex px py → tex px py ≤ 1 →
      PS tex px py = ⟨1, 0, 0, 1⟩ ∨ PS tex px py = ⟨0, 1, 0, 1⟩ ∨
        PS tex px py = ⟨0, 0, 1, 1⟩) ∧
    PS (fun _ _ => 0) px py = ⟨1, 0, 0, 1⟩ ∧
    PS (fun _ _ => 1) px py = ⟨0, 1, 0, 1⟩ ∧
    PS (fun _ _ => 1 / 2) px py = ⟨0, 0, 1, 1⟩ := by
  have h0 : tex px py = 0 → PS tex px py = ⟨1, 0, 0, 1⟩ := by
    intro h; simp [PS, h]
  have h1 : tex px py = 1 → PS tex px py = ⟨0, 1, 0, 1⟩ := by
    intro h; simp [PS, h]
  have h2 : 0 < tex px py → tex px py < 1 → PS tex px py = ⟨0, 0, 1, 1⟩ := by
    intro ha hb
    simp [PS, ha, hb, ne_of_gt ha, ne_of_lt hb]
  refine ⟨rfl, h0, h1, h2, ?_, ?_, ?_, ?_⟩
  · intro ha hb
    rcases eq_or_lt_of_le ha with h | h
    · exact Or.inl (h0 h.symm)
    · rcases eq_or_lt_of_le hb with h' | h'
      · exact Or.inr (Or.inl (h1 h'))
      · exact Or.inr (Or.inr (h2 h h'))
  · simp [PS]
  · simp [PS]
  · norm_num [PS]

/-- Witness of C9: a texture holding depth 1/4 at pixel (3, 5). -/
theorem pixel_shader_colour_witness :
    (0 : ℚ) < 1 / 4 ∧ (1 / 4 : ℚ) < 1 ∧
    PS (fun _ _ => 1 / 4) 3 5 = ⟨0, 0, 1, 1⟩ :=
  ⟨by norm_num, by norm_num,
    (pixel_shader_colour (fun _ _ => 1 / 4) 3 5).2.2.2.1 (by norm_num) (by norm_num)⟩

/-- C10: each frame records exactly one resolve, from the 8-sample depth
target into the resolved texture, with mode MAX over the rectangle
(0,0)-(windowWidth,windowHeight); under the maximum reduction every texel of
that rectangle receives the greatest of its 8 samples (it is one of the samples
and no sample exceeds it), whatever the destination held. A texel with one
sample 0.3 and seven samples 0.9 resolves to 0.9, which is not the average
0.825 of its samples. -/
theorem resolve_takes_maximum (w h : Nat) (bb : Fin 2) (src : MultisampleTexture)
    (dst : Nat → Nat → ℚ) (x y : Nat) (hx : x < w) (hy : y < h) :
    resolvesOf (recordFrame w h bb) =
      [ResolveSubresourceRegion ResolvedDepthBufferTexture 0 0 DepthBufferTexture
        ⟨0, 0, w, h⟩ D3D12_RESOLVE_MODE.MAX] ∧
    sampleCount DepthBufferTexture = 8 ∧
    (∀ i, src x y i ≤ execResolves src dst (recordFrame w h bb) x y) ∧
    (∃ i, execResolves src dst (recordFrame w h bb) x y = src x y i) ∧
    execResolves sampleTexel dst (recordFrame w h bb) x y = 9 / 10 ∧
    resolveSamples D3D12_RESOLVE_MODE.AVERAGE (List.ofFn (sampleTexel x y)) = 33 / 40 := by
  have hout : ∀ s : MultisampleTexture, execResolves s dst (recordFrame w h bb) x y
      = resolveSamples D3D12_RESOLVE_MODE.MAX (List.ofFn (s x y)) := by
    intro s
    simp [recordFrame, execResolves, resolveRegion, hx, hy]
  refine ⟨rfl, rfl, ?_, ?_, ?_, ?_⟩
  · rw [hout]; exact (resolveSamples_max_ofFn (src x y)).1
  · rw [hout]; exact (resolveSamples_max_ofFn (src x y)).2
  · rw [hout]
    simp only [sampleTexel, sampleCount, List.ofFn_succ, List.ofFn_zero, resolveSamples]
    norm_num [Fin.ext_iff]
  · simp only [sampleTexel, sampleCount, List.ofFn_succ, List.ofFn_zero, resolveSamples]
    norm_num [Fin.ext_iff]

/-- Witness of C10: texel (10, 20) of a 1280x720 surface. -/
theorem resolve_takes_maximum_witness :
    10 < 1280 ∧ 20 < 720 ∧
    execResolves sampleTexel (fun _ _ => 0) (recordFrame 1280 720 0) 10 20 = 9 / 10 :=
  ⟨by decide, by decide,
    (resolve_takes_maximum 1280 720 0 sampleTexel (fun _ _ => 0) 10 20
      (by decide) (by decide)).2.2.2.2.1⟩

/-! ## Claims on the startup code -/

/-- C11: `CheckDXCallResult` ends the process exactly when the `HRESULT` is a
failure code, that is negative as a signed 32-bit value, and it has then shown
its error box and done nothing else; on every other code it returns with no
effect. A `Present` that returns `DXGI_ERROR_WAS_STILL_DRAWING` ends the
process, and the wrapper makes the wrapped call once, whatever a second call
would have returned. -/
theorem wrapper_is_fail_fast (names : HRESULT → Option String) (hr : HRESULT)
    (Function : String) (Func : Nat → HRESULT) :
    ((∃ effects code, CheckDXCallResult names hr Function = Outcome.ExitProcess effects code)
      ↔ hr < 0) ∧
    (hr < 0 → CheckDXCallResult names hr Function =
      Outcome.ExitProcess [Effect.MessageBox Function (names hr) hr] 0) ∧
    (0 ≤ hr → CheckDXCallResult names hr Function = Outcome.returned [] ()) ∧
    DXGI_ERROR_WAS_STILL_DRAWING < 0 ∧
    (Func 0 = DXGI_ERROR_WAS_STILL_DRAWING →
      (SAFE_DX names Func "SwapChain->Present(1, 0)").outcome =
        Outcome.ExitProcess [Effect.MessageBox "SwapChain->Present(1, 0)"
          (names DXGI_ERROR_WAS_STILL_DRAWING) DXGI_ERROR_WAS_STILL_DRAWING] 0) ∧
    (SAFE_DX names Func Function).calls = 1 := by
  have hneg : hr < 0 → CheckDXCallResult names hr Function =
      Outcome.ExitProcess [Effect.MessageBox Function (names hr) hr] 0 := by
    intro h
    simp [CheckDXCallResult, FAILED, h]
  have hpos : 0 ≤ hr → CheckDXCallResult names hr Function = Outcome.returned [] () := by
    intro h
    simp [CheckDXCallResult, FAILED, not_lt.mpr h]
  have hstill : DXGI_ERROR_WAS_STILL_DRAWING < 0 := by decide
  refine ⟨⟨?_, ?_⟩, hneg, hpos, hstill, ?_, rfl⟩
  · rintro ⟨effects, code, h⟩
    by_contra hn
    rw [hpos (not_lt.mp hn)] at h
    cases h
  · intro h
    exact ⟨_, _, hneg h⟩
  · intro h
    simp only [SAFE_DX, h]
    simp [CheckDXCallResult, FAILED, hstill]

/-- Witness of C11: a `Present` that fails with `DXGI_ERROR_WAS_STILL_DRAWING`
and would succeed if called again. -/
theorem wrapper_is_fail_fast_witness :
    DXGI_ERROR_WAS_STILL_DRAWING < 0 ∧
    CheckDXCallResult (fun _ => none) DXGI_ERROR_WAS_STILL_DRAWING "SwapChain->Present(1, 0)" =
      Outcome.ExitProcess [Effect.MessageBox "SwapChain->Present(1, 0)" none
        DXGI_ERROR_WAS_STILL_DRAWING] 0 :=
  ⟨by decide,
    (wrapper_is_fail_fast (fun _ => none) DXGI_ERROR_WAS_STILL_DRAWING
      "SwapChain->Present(1, 0)"
      (fun n => if n = 0 then DXGI_ERROR_WAS_STILL_DRAWING else S_OK)).2.1 (by decide)⟩

/-- C12, the code at the failing input: when `D3DCompile` fails with
`E_OUTOFMEMORY` and hands back no error blob, `CompileShader` neither pauses
nor ends the process; it returns to `main` with a null bytecode blob. With an
error blob the same failure pauses and ends the process. -/
theorem compile_failure_without_error_blob_returns :
    FAILED E_OUTOFMEMORY ∧
    CompileShader ⟨E_OUTOFMEMORY, none, none⟩ = Outcome.returned [] none ∧
    CompileShader ⟨E_OUTOFMEMORY, none, some "out of memory"⟩ =
      Outcome.ExitProcess [Effect.system "PAUSE.EXE"] 0 := by
  decide

/-- C13, the code at the failing input: with one adapter and
`-adapterindex=5`, `EnumAdapters` finds no adapter, the error box is shown and
the process ends with exit status 0; so it does on the default path when the
system has no adapter. On the vendor path the exit status is `(UINT)-1`. -/
theorem adapter_not_found_exit_status (names : HRESULT → Option String)
    (hasVendor : String → Bool) :
    (EnumAdapters ["Adapter A"] 5).1 = DXGI_ERROR_NOT_FOUND ∧
    selectAdapter names hasVendor ["Adapter A"] (AdapterChoice.adapterindex 5) =
      Outcome.ExitProcess [Effect.MessageBox "Factory->EnumAdapters(AdapterIndex, &Adapter)"
        (names DXGI_ERROR_NOT_FOUND) DXGI_ERROR_NOT_FOUND] 0 ∧
    selectAdapter names hasVendor [] AdapterChoice.default =
      Outcome.ExitProcess [Effect.MessageBox "Factory->EnumAdapters(0, &Adapter)"
        (names DXGI_ERROR_NOT_FOUND) DXGI_ERROR_NOT_FOUND] 0 ∧
    selectAdapter names (fun _ => false) ["Adapter A"] AdapterChoice.adaptervendor =
      Outcome.ExitProcess [Effect.wcout vendorNotFoundMessage] (2 ^ 32 - 1) := by
  have hneg : FAILED DXGI_ERROR_NOT_FOUND := by decide
  refine ⟨rfl, ?_, ?_, ?_⟩
  · simp [selectAdapter, EnumAdapters, CheckDXCallResult, hneg, Outcome.andThen]
  · simp [selectAdapter, EnumAdapters, CheckDXCallResult, hneg, Outcome.andThen]
  · simp [selectAdapter, EnumAdapters, vendorLoop, exitCodeMinusOne]

/-! ## Claims on barrier validation, window geometry and the meshes -/

theorem mem_of_any_isResolveInto (res : Resource) (l : List GpuOp)
    (hl : l.any (isResolveInto res) = true) :
    ∃ x y src rect mode, GpuOp.cmd (ResolveSubresourceRegion res x y src rect mode) ∈ l := by
  rw [List.any_eq_true] at hl
  obtain ⟨op, hop, hb⟩ := hl
  cases op with
  | Present i => simp [isResolveInto] at hb
  | cmd c =>
    cases c <;> simp [isResolveInto] at hb
    subst hb
    exact ⟨_, _, _, _, _, hop⟩

theorem mem_allResources (r : Resource) : r ∈ allResources := by
  cases r with
  | BackBufferTextures i => fin_cases i <;> simp [allResources]
  | _ => simp [allResources]

theorem checkFrom_shaderReadBarrierOK (w h : Nat) (bb : Fin 2) :
    checkFrom shaderReadBarrierOK creationState Bindings.reset [] (frameTimeline w h bb)
      = true := by
  fin_cases bb <;> rfl

theorem checkFrom_shaderReadOK (w h : Nat) (bb : Fin 2) :
    checkFrom shaderReadOK creationState Bindings.reset [] (frameTimeline w h bb)
      = true := by
  fin_cases bb <;> rfl

/-- C15: for every primary-display resolution, `windowWidth` and
`windowHeight` after the clamp are min(1280, screenW) and min(720, screenH), so
they do not exceed the display; the window, the swap chain and both depth
textures are created with that size, and the viewport, the scissor rectangle
and the resolve rectangle recorded in each frame span (0,0) to that size. -/
theorem surfaces_have_clamped_size (screenW screenH : Nat) (bb : Fin 2) :
    (clampWindow screenW screenH).1 = min 1280 screenW ∧
    (clampWindow screenW screenH).2 = min 720 screenH ∧
    (clampWindow screenW screenH).1 ≤ screenW ∧
    (clampWindow screenW screenH).2 ≤ screenH ∧
    glfwCreateWindowSize (clampWindow screenW screenH).1 (clampWindow screenW screenH).2 =
      (((min 1280 screenW : Nat) : Int), ((min 720 screenH : Nat) : Int)) ∧
    SwapChainDesc (clampWindow screenW screenH).1 (clampWindow screenW screenH).2 =
      ⟨min 1280 screenW, min 720 screenH, 1⟩ ∧
    DepthBufferTextureDesc (clampWindow screenW screenH).1 (clampWindow screenW screenH).2 =
      ⟨min 1280 screenW, min 720 screenH, 8⟩ ∧
    ResolvedDepthBufferTextureDesc (clampWindow screenW screenH).1
      (clampWindow screenW screenH).2 = ⟨min 1280 screenW, min 720 screenH, 1⟩ ∧
    RSSetViewports (min 1280 screenW) (min 720 screenH) ∈
      recordFrame (clampWindow screenW screenH).1 (clampWindow screenW screenH).2 bb ∧
    RSSetScissorRects ⟨0, 0, min 1280 screenW, min 720 screenH⟩ ∈
      recordFrame (clampWindow screenW screenH).1 (clampWindow screenW screenH).2 bb ∧
    ResolveSubresourceRegion ResolvedDepthBufferTexture 0 0 DepthBufferTexture
        ⟨0, 0, min 1280 screenW, min 720 screenH⟩ D3D12_RESOLVE_MODE.MAX ∈
      recordFrame (clampWindow screenW screenH).1 (clampWindow screenW screenH).2 bb := by
  have hw : (clampWindow screenW screenH).1 = min 1280 screenW := by
    simp only [clampWindow, windowWidth]
    split_ifs <;> omega
  have hh : (clampWindow screenW screenH).2 = min 720 screenH := by
    simp only [clampWindow, windowHeight]
    split_ifs <;> omega
  have hw32 : toInt32 (min 1280 screenW) = ((min 1280 screenW : Nat) : Int) := by
    have : min 1280 screenW % 2 ^ 32 = min 1280 screenW := Nat.mod_eq_of_lt (by omega)
    simp only [toInt32, this]
    rw [if_pos (by omega)]
  have hh32 : toInt32 (min 720 screenH) = ((min 720 screenH : Nat) : Int) := by
    have : min 720 screenH % 2 ^ 32 = min 720 screenH := Nat.mod_eq_of_lt (by omega)
    simp only [toInt32, this]
    rw [if_pos (by omega)]
  rw [hw, hh]
  refine ⟨rfl, rfl, by omega, by omega, ?_, rfl, rfl, rfl, ?_, ?_, ?_⟩
  · simp only [glfwCreateWindowSize, hw32, hh32]
  · simp [recordFrame]
  · simp [recordFrame]
  · simp [recordFrame]

/-- C17: the cube has 8 vertices and 36 indices, all below 8; the 12 triangles
each have three distinct vertices lying on one face of the cube; each of the 6
faces carries exactly 2 triangles; and for every triangle (a,b,c) the normal
(b-a) x (c-a) has a positive dot product with the centroid, so all 12 triangles
are wound the same way seen from outside. The two triangles of a face meet
along a diagonal and use its four corners, so they cover it. -/
theorem cube_index_buffer_well_formed :
    Vertices.length = 8 ∧ Indices.length = 36 ∧
    (∀ i ∈ Indices, i < 8) ∧
    (listTriangles Indices).length = 12 ∧
    (∀ t ∈ listTriangles Indices,
      t.1 ≠ t.2.1 ∧ t.2.1 ≠ t.2.2 ∧ t.1 ≠ t.2.2 ∧ ∃ f ∈ cubeFaces, onFace f t = true) ∧
    (∀ f ∈ cubeFaces, ((listTriangles Indices).filter (onFace f)).length = 2) ∧
    (∀ f ∈ cubeFaces, tilesFace f = true) ∧
    (∀ t ∈ listTriangles Indices,
      0 < XMFLOAT3.dot
        (XMFLOAT3.cross (XMFLOAT3.sub (vertexAt t.2.1) (vertexAt t.1))
          (XMFLOAT3.sub (vertexAt t.2.2) (vertexAt t.1)))
        (centroid (vertexAt t.1) (vertexAt t.2.1) (vertexAt t.2.2))) ∧
    InputLayoutNumElements Pipeline.CubeDrawPipeline = 1 ∧
    DrawIndexedInstanced Indices.length 1 ∈ recordFrame windowWidth windowHeight 0 := by
  refine ⟨rfl, rfl, by decide, rfl, by decide, by decide, by decide, ?_, rfl, by decide⟩
  have hall : (listTriangles Indices).all facesOutward = true := by
    norm_num [listTriangles, Indices, facesOutward, vertexAt, Vertices, XMFLOAT3.dot,
      XMFLOAT3.cross, XMFLOAT3.sub, centroid]
  intro t ht
  have := List.all_eq_true.mp hall t ht
  simpa [facesOutward] using this

/-- Witness of C17: the first triangle, on the face z = -1. -/
theorem cube_index_buffer_well_formed_witness :
    (5, 4, 7) ∈ listTriangles Indices ∧ (5 : Nat) ≠ 4 :=
  ⟨by decide,
    (cube_index_buffer_well_formed.2.2.2.2.1 (5, 4, 7) (by decide)).1⟩

/-- C18: for a primary display of `screenW` by `screenH`, both below 2^31, the
unsigned subtractions of the window position do not wrap (the clamped size does
not exceed the screen, so the machine difference is the true difference), the
position is non-negative as a signed 32-bit value, the window lies on the
display, and the two margins on each axis differ by at most 1 pixel. -/
theorem window_is_centred_on_display (screenW screenH : Nat)
    (hW : screenW < 2 ^ 31) (hH : screenH < 2 ^ 31) :
    (clampWindow screenW screenH).1 ≤ screenW ∧
    (clampWindow screenW screenH).2 ≤ screenH ∧
    sub32 screenW (clampWindow screenW screenH).1 = screenW - (clampWindow screenW screenH).1 ∧
    sub32 screenH (clampWindow screenW screenH).2 = screenH - (clampWindow screenW screenH).2 ∧
    (windowPos screenW screenH).1 =
      (((screenW - (clampWindow screenW screenH).1) / 2 : Nat) : Int) ∧
    (windowPos screenW screenH).2 =
      (((screenH - (clampWindow screenW screenH).2) / 2 : Nat) : Int) ∧
    0 ≤ (windowPos screenW screenH).1 ∧ 0 ≤ (windowPos screenW screenH).2 ∧
    (windowPos screenW screenH).1 + (clampWindow screenW screenH).1 ≤ screenW ∧
    (windowPos screenW screenH).2 + (clampWindow screenW screenH).2 ≤ screenH ∧
    (screenW : Int) - ((windowPos screenW screenH).1 + (clampWindow screenW screenH).1)
      - (windowPos screenW screenH).1 ≤ 1 ∧
    0 ≤ (screenW : Int) - ((windowPos screenW screenH).1 + (clampWindow screenW screenH).1)
      - (windowPos screenW screenH).1 ∧
    (screenH : Int) - ((windowPos screenW screenH).2 + (clampWindow screenW screenH).2)
      - (windowPos screenW screenH).2 ≤ 1 ∧
    0 ≤ (screenH : Int) - ((windowPos screenW screenH).2 + (clampWindow screenW screenH).2)
      - (windowPos screenW screenH).2 := by
  have key : ∀ s c : Nat, s < 2 ^ 31 → c ≤ s →
      sub32 s c = s - c ∧ toInt32 (sub32 s c >>> 1) = (((s - c) / 2 : Nat) : Int) := by
    intro s c hs hc
    have h1 : sub32 s c = s - c := by
      unfold sub32
      omega
    refine ⟨h1, ?_⟩
    rw [h1, Nat.shiftRight_eq_div_pow, pow_one]
    unfold toInt32
    have h2 : (s - c) / 2 % 2 ^ 32 = (s - c) / 2 := Nat.mod_eq_of_lt (by omega)
    rw [h2, if_pos (by omega)]
  have hw : (clampWindow screenW screenH).1 ≤ screenW := by
    simp only [clampWindow, windowWidth]
    split_ifs <;> omega
  have hh : (clampWindow screenW screenH).2 ≤ screenH := by
    simp only [clampWindow, windowHeight]
    split_ifs <;> omega
  obtain ⟨kw1, kw2⟩ := key screenW _ hW hw
  obtain ⟨kh1, kh2⟩ := key screenH _ hH hh
  have px : (windowPos screenW screenH).1 =
      (((screenW - (clampWindow screenW screenH).1) / 2 : Nat) : Int) := kw2
  have py : (windowPos screenW screenH).2 =
      (((screenH - (clampWindow screenW screenH).2) / 2 : Nat) : Int) := kh2
  refine ⟨hw, hh, kw1, kh1, px, py, ?_, ?_, ?_, ?_, ?_, ?_, ?_, ?_⟩ <;>
    first
    | (rw [px]; omega)
    | (rw [py]; omega)

/-- Witness of C18: a 1920x1080 display; the window is placed at (320, 180). -/
theorem window_is_centred_on_display_witness :
    1920 < 2 ^ 31 ∧ 1080 < 2 ^ 31 ∧
    (windowPos 1920 1080).1 = (((1920 - (clampWindow 1920 1080).1) / 2 : Nat) : Int) :=
  ⟨by decide, by decide,
    (window_is_centred_on_display 1920 1080 (by decide) (by decide)).2.2.2.2.1⟩

end MSAAResolve
